import Mathlib

/-!
Verification of the dsgx-converter geometry-command compiler and container
writer (src/model/dsgx.py, src/model/geometry_command.py, src/model/model.py,
src/model2dsgx.py), shallowly embedded in Lean.

Conventions of the embedding:
* Python byte strings are `List Nat` (one entry per byte).
* Python floats are modelled as exact rationals `ℚ`; Python's `int(...)`
  truncation toward zero on a float is `pyInt`.
* Python's arbitrary-precision `int` is `Int`; bitwise AND of an `Int` with a
  nonnegative mask (two's-complement semantics) is `pyAnd`.
* `struct.pack("<I", n)` raises `struct.error` outside the unsigned 32-bit
  range, so its embedding `packU32` returns an `Option`.
-/

namespace DSGX

/-- WORD_SIZE_BYTES = 4 (dsgx.py line 16). -/
def WORD_SIZE_BYTES : Nat := 4

/-- Python's bitwise AND of an arbitrary integer `a` with a nonnegative mask
`m`, using Python's infinite-width two's-complement semantics: for `a < 0` the
bits of `a` are the complement of the bits of `-(a+1)`. -/
def pyAnd (a : Int) (m : Nat) : Nat :=
  if 0 ≤ a then Nat.land a.toNat m else m - Nat.land (-(a+1)).toNat m

/-- Truncation toward zero of a rational, as Python's `int()` applied to a
float (exact rational arithmetic stands in for IEEE floats throughout). -/
def pyInt (q : ℚ) : Int := Int.tdiv q.num (q.den : Int)

/-- to_fixed_point(float_value, fraction=12) = int(float_value * 2 ** fraction)
(dsgx.py lines 43-44). -/
def to_fixed_point (float_value : ℚ) (fraction : Nat := 12) : Int :=
  pyInt (float_value * 2 ^ fraction)

/-- Little-endian bytes of `struct.pack("<I", n)`; Python raises
`struct.error` when `n` is not in the unsigned 32-bit range, hence `none`. -/
def packU32 (n : Nat) : Option (List Nat) :=
  if n < 4294967296 then
    some [n % 256, n / 256 % 256, n / 65536 % 256, n / 16777216 % 256]
  else none

/-- ASCII encoding of a string as bytes (`str.encode("ascii")`; the sources
only ever pass ASCII names). -/
def asciiBytes (s : String) : List Nat := s.toList.map Char.toNat

/-- Decode the little-endian 32-bit word stored at byte offset `i`. -/
def readU32 (bs : List Nat) (i : Nat) : Nat :=
  bs.getD i 0 + 256 * bs.getD (i+1) 0 + 65536 * bs.getD (i+2) 0 +
    16777216 * bs.getD (i+3) 0

/-- padding_to(byte_count, alignment) (dsgx.py lines 64-66). -/
def padding_to (byte_count : Nat) (alignment : Nat := WORD_SIZE_BYTES) : Nat :=
  if byte_count % alignment ≠ 0 then alignment - byte_count % alignment else 0

/-- wrap_chunk(name, data) (dsgx.py lines 46-62).  The Python function asserts
that the name is four characters long and packs with
`struct.pack('< 4s I %ds %dx' ...)`: four name bytes, the padded payload size
in words as an unsigned 32-bit little-endian field, the payload, and zero
padding.  `none` models the assertion failure / struct.error. -/
def wrap_chunk (name : String) (data : List Nat) : Option (List Nat) :=
  if name.length = 4 then
    let padding_size_bytes := padding_to data.length WORD_SIZE_BYTES
    let padded_payload_size_words := (data.length + padding_size_bytes) / WORD_SIZE_BYTES
    (packU32 padded_payload_size_words).map (fun sizeField =>
      asciiBytes name ++ sizeField ++ data ++ List.replicate padding_size_bytes 0)
  else none

/-- The first argument of a pack_bits pair: a single bit position or an
inclusive (lower, upper) range (dsgx.py line 131). -/
inductive BitKey where
  | single (n : Nat)
  | range (lower upper : Nat)
deriving DecidableEq

/-- lower, upper = (key, key) if isinstance(key, int) else key. -/
def BitKey.bounds : BitKey → Nat × Nat
  | .single n => (n, n)
  | .range lower upper => (lower, upper)

/-- pack_bits(*bit_value_pairs) (dsgx.py lines 127-135 and
geometry_command.py lines 12-20, which are identical).  Note the source
computes the mask as `(bit_count << bit_count) - 1`. -/
def pack_bits (bit_value_pairs : List (BitKey × Int)) : Nat :=
  bit_value_pairs.foldl (fun packed_bits pair =>
    let lower := pair.1.bounds.1
    let upper := pair.1.bounds.2
    let bit_count := upper - lower + 1
    let mask := (bit_count <<< bit_count) - 1
    packed_bits ||| (pyAnd pair.2 mask <<< lower)) 0

/-- to_dsgx_string(string) (dsgx.py lines 68-71): struct.pack("<31sx", s).
Python's struct `s` conversion truncates a too-long argument and null-pads a
too-short one to exactly 31 bytes; the `x` conversion appends one zero byte.
`none` models Python's `None` argument, replaced by the empty string. -/
def to_dsgx_string (string : Option String) : List Nat :=
  let bytes := asciiBytes (string.getD "")
  (bytes.take 31 ++ List.replicate (31 - bytes.length) 0) ++ [0]

/-- The value of a parsed material flag: the string after an equals sign, or
Python's True for a flag without a value. -/
inductive FlagVal where
  | str (s : String)
  | boolTrue
deriving DecidableEq

/-- Mutating insert into a Python dict represented as an association list in
insertion order: an existing key keeps its position and gets the new value,
a new key is appended. -/
def pyDictInsert (d : List (String × FlagVal)) (k : String) (v : FlagVal) :
    List (String × FlagVal) :=
  if d.any (fun p => p.1 = k) then
    d.map (fun p => if p.1 = k then (p.1, v) else p)
  else d ++ [(k, v)]

/-- dict(pairs) built from a generator of key/value pairs. -/
def pyDict (pairs : List (String × FlagVal)) : List (String × FlagVal) :=
  pairs.foldl (fun d kv => pyDictInsert d kv.1 kv.2) []

/-- dict.get(k) returning None when the key is absent. -/
def pyDictGet (d : List (String × FlagVal)) (k : String) : Option FlagVal :=
  (d.find? (fun p => p.1 = k)).map Prod.snd

/-- Python str.split with a single-character separator applied to the
character list of the string: "a,,b".split(",") gives ["a", "", "b"] and
"".split(",") gives [""].  (All separators in the source — the pipe, comma
and equals of the material-flag mini-language — are single characters.) -/
def splitChar (sep : Char) : List Char → List (List Char)
  | [] => [[]]
  | c :: cs =>
    let r := splitChar sep cs
    if c = sep then [] :: r
    else (c :: r.headD []) :: r.tail

/-- str.split(sep) for a one-character separator sep. -/
def pySplit (s : String) (sep : Char) : List String :=
  (splitChar sep s.toList).map (fun l => String.mk l)

/-- parse_material_flags_new(material_name) (dsgx.py lines 73-90). -/
def parse_material_flags_new (material_name : String) : List (String × FlagVal) :=
  if ¬ material_name.toList.contains '|' then []
  else
    let flags_string := (pySplit material_name '|').headD ""
    let flag_parts := (pySplit flags_string ',').map (fun flag => pySplit flag '=')
    pyDict (flag_parts.map (fun parts =>
      (parts.headD "", if parts.length > 1 then FlagVal.str (parts.getD 1 "")
        else FlagVal.boolTrue)))

/-- parse_material_flags(material_name) (dsgx.py lines 92-114), the original
implementation wrapped by the reconcile decorator; it builds the dict by
assignment inside a loop. -/
def parse_material_flags (material_name : String) : List (String × FlagVal) :=
  let sections := pySplit material_name '|'
  if sections.length = 1 then []
  else
    (pySplit (sections.headD "") ',').foldl (fun flags flag =>
      let parts := pySplit flag '='
      let flag_name := parts.headD ""
      if parts.length > 1 then pyDictInsert flags flag_name (FlagVal.str (parts.getD 1 ""))
      else pyDictInsert flags flag_name FlagVal.boolTrue) []

/-- int(s) on a decimal string: optional sign followed by digits.  A malformed
numeric string raises ValueError in Python; the sources only apply this to
well-formed flag values, so the embedding totalizes malformed digits to the
digit-fold junk value. -/
def digitsToNat (l : List Char) : Nat :=
  l.foldl (fun n c => n * 10 + (c.toNat - 48)) 0

/-- int() on a numeric string literal with optional leading sign. -/
def pyIntOfString (s : String) : Int :=
  match s.toList with
  | '-' :: rest => -(digitsToNat rest : Int)
  | '+' :: rest => (digitsToNat rest : Int)
  | l => (digitsToNat l : Int)

/-- Python int() applied to a parsed flag value: int of a decimal string
literal, or int(True) = 1. -/
def FlagVal.toInt : FlagVal → Int
  | .str s => pyIntOfString s
  | .boolTrue => 1

/-- A geometry command: {instruction: opcode byte, params: packed words}.
Each struct.pack("<I", w) / struct.pack("<i", w) in the source contributes one
32-bit parameter word, stored here as its numeric value. -/
structure Cmd where
  instruction : Nat
  params : List Nat
deriving DecidableEq

/-- command(command, parameters) (dsgx.py lines 116-118). -/
def command (c : Nat) (parameters : List Nat := []) : Cmd :=
  ⟨c, parameters⟩

/-- struct.pack("<i", v): the unsigned value of the two's-complement 32-bit
little-endian encoding of a (possibly negative) integer. -/
def word32 (v : Int) : Nat := (v % 4294967296).toNat

/-- The while loop of texture_size_shift, with explicit fuel so that the
kernel can evaluate it (each iteration halves size, so size iterations always
suffice to reach the 8 < size exit condition). -/
def textureShiftAux : Nat → Nat → Nat
  | 0, _ => 0
  | fuel + 1, size => if 8 < size then textureShiftAux fuel (size / 2) + 1 else 0

/-- texture_size_shift(size) (dsgx.py lines 120-125): shift = 0; while
8 < size: size >>= 1; shift += 1. -/
def texture_size_shift (size : Nat) : Nat := textureShiftAux size size

/-- scale_components(components, constant) without a cast
(dsgx.py lines 38-41). -/
def scale_components (components : List ℚ) (constant : ℚ) : List ℚ :=
  components.map (fun component => component * constant)

/-- scale_components(components, constant, int): the cast truncates each
scaled component toward zero. -/
def scale_components_int (components : List ℚ) (constant : ℚ) : List Int :=
  components.map (fun component => pyInt (component * constant))

/-- _24bit_to_16bit = lambda components: scale_components(components, 1 / 8, int)
(dsgx.py line 219). -/
def _24bit_to_16bit (components : List ℚ) : List Int :=
  scale_components_int components (1 / 8)

/-- teximage_param(width, height, offset, format, ...) — the module-level
reimplementation (dsgx.py lines 137-156). -/
def teximage_param (width height : Nat) (offset : Nat := 0) (format : Nat := 0)
    (palette_transparency : Nat := 0) (transform_mode : Nat := 0)
    (u_repeat : Nat := 1) (v_repeat : Nat := 1) (u_flip : Nat := 0)
    (v_flip : Nat := 0) : Cmd :=
  let width_index := texture_size_shift width
  let height_index := texture_size_shift height
  let attr := pack_bits [
    (.range 0 15, (offset / 8 : Nat)),
    (.single 16, u_repeat),
    (.single 17, v_repeat),
    (.single 18, u_flip),
    (.single 19, v_flip),
    (.range 20 22, width_index),
    (.range 23 25, height_index),
    (.range 26 28, format),
    (.single 29, palette_transparency),
    (.range 30 31, transform_mode)]
  command 0x2A [attr]

/-- texpllt_base(offset, texture_format) — the module-level reimplementation
(dsgx.py lines 159-162). -/
def texpllt_base (offset : Nat) (texture_format : Nat) : Cmd :=
  let FOUR_COLOR_PALETTE := 2
  let shift : Nat := if texture_format = FOUR_COLOR_PALETTE then 8 else 16
  command 0x2B [pack_bits [(.range 0 12, (offset >>> shift : Nat))]]

/-- polygon_attr(...) — the module-level reimplementation (dsgx.py lines
195-216).  alpha and polygon_id are Int because they come from int() applied
to user-controlled flag strings. -/
def polygon_attr (light0 : Nat := 0) (light1 : Nat := 0) (light2 : Nat := 0)
    (light3 : Nat := 0) (mode : Nat := 0) (front : Nat := 1) (back : Nat := 0)
    (new_depth : Nat := 0) (farplane_intersecting : Nat := 1)
    (dot_polygons : Nat := 0) (depth_test : Nat := 0) (fog_enable : Nat := 1)
    (alpha : Int := 31) (polygon_id : Int := 0) : Cmd :=
  let attr := pack_bits [
    (.single 0, light0),
    (.single 1, light1),
    (.single 2, light2),
    (.single 3, light3),
    (.range 4 5, mode),
    (.single 6, back),
    (.single 7, front),
    (.single 11, new_depth),
    (.single 12, farplane_intersecting),
    (.single 13, dot_polygons),
    (.single 14, depth_test),
    (.single 15, fog_enable),
    (.range 16 20, alpha),
    (.range 24 29, polygon_id)]
  command 0x29 [attr]

/-- dif_amb(diffuse, ambient, setvertex, use256) — the module-level
reimplementation (dsgx.py lines 221-235).  Components are rationals (Python
floats); when use256 is false the sources only ever pass integer-valued
components, on which the pyInt conversion is the identity. -/
def dif_amb (diffuse ambient : List ℚ) (setvertex : Bool := false)
    (use256 : Bool := false) : Cmd :=
  let d : List Int := if use256 then _24bit_to_16bit diffuse else diffuse.map pyInt
  let a : List Int := if use256 then _24bit_to_16bit ambient else ambient.map pyInt
  command 0x30 [pack_bits [
    (.range 0 4, d.getD 0 0),
    (.range 5 9, d.getD 1 0),
    (.range 10 14, d.getD 2 0),
    (.single 15, if setvertex then 1 else 0),
    (.range 16 20, a.getD 0 0),
    (.range 21 25, a.getD 1 0),
    (.range 26 30, a.getD 2 0)]]

/-- spe_emi(specular, emit, use_specular_table, use256) — the module-level
reimplementation (dsgx.py lines 237-251). -/
def spe_emi (specular emit : List ℚ) (use_specular_table : Bool := false)
    (use256 : Bool := false) : Cmd :=
  let s : List Int := if use256 then _24bit_to_16bit specular else specular.map pyInt
  let e : List Int := if use256 then _24bit_to_16bit emit else emit.map pyInt
  command 0x31 [pack_bits [
    (.range 0 4, s.getD 0 0),
    (.range 5 9, s.getD 1 0),
    (.range 10 14, s.getD 2 0),
    (.single 15, if use_specular_table then 1 else 0),
    (.range 16 20, e.getD 0 0),
    (.range 21 25, e.getD 1 0),
    (.range 26 30, e.getD 2 0)]]

/-- CLEAR_TEXTURE_PARAMETERS = teximage_param(0, 0, 0, 0) (dsgx.py line 253). -/
def CLEAR_TEXTURE_PARAMETERS : Cmd := teximage_param 0 0 0 0

/-- Model.Material (model.py lines 134-141 / addMaterial lines 164-172):
color channels are 3-component sequences of floats. -/
structure Material where
  texture : Option String
  texture_size : Nat × Nat
  diffuse : List ℚ
  ambient : List ℚ
  specular : List ℚ
  emit : List ℚ

/-- Model.Vertex (model.py lines 95-107). -/
structure Vertex where
  location : ℚ × ℚ × ℚ
  group : String

instance : Inhabited Vertex := ⟨⟨(0, 0, 0), "default"⟩⟩

/-- Model.Polygon (model.py lines 109-131). -/
structure Polygon where
  vertices : List Nat
  material : String
  uvlist : List (ℚ × ℚ)
  face_normal : ℚ × ℚ × ℚ
  vertex_normals : List (Option (ℚ × ℚ × ℚ))
  smooth_shading : Bool

/-- A 4x4 matrix in euclid3 layout with rational entries; the default values
give euclid.Matrix4(), the identity. -/
structure Matrix4 where
  a : ℚ := 1
  b : ℚ := 0
  c : ℚ := 0
  d : ℚ := 0
  e : ℚ := 0
  f : ℚ := 1
  g : ℚ := 0
  h : ℚ := 0
  i : ℚ := 0
  j : ℚ := 0
  k : ℚ := 1
  l : ℚ := 0
  m : ℚ := 0
  n : ℚ := 0
  o : ℚ := 0
  p : ℚ := 1

/-- Model.Animation (model.py lines 143-154): a mapping from node name to the
per-frame transform list, plus a length in frames. -/
structure Animation where
  nodes : List (String × List Matrix4)
  length : Nat

/-- The parts of a Model (model.py) that the writer reads, with the active
mesh's vertex and polygon lists inlined (Model.ActiveMesh()).  materials is a
total function standing in for the Python dict: the writer looks up only
materials that the importer has registered (the input contract guarantees the
lookup succeeds), and vertex indices are assumed in range likewise. -/
structure Model where
  groups : List String
  materials : String → Material
  vertices : List Vertex
  polygons : List Polygon
  global_matrix : Matrix4
  active_mesh : Option String
  animations : List (String × Animation)

/-- Polygon.vertexGroup(self) (model.py lines 123-124). -/
def Polygon.vertexGroup (p : Polygon) (model : Model) : String :=
  (model.vertices.getD (p.vertices.headD 0) default).group

/-- Polygon.isMixed(self) (model.py lines 126-131). -/
def Polygon.isMixed (p : Polygon) (model : Model) : Bool :=
  let orig := (model.vertices.getD (p.vertices.headD 0) default).group
  p.vertices.any (fun v => orig ≠ (model.vertices.getD v default).group)

/-- Python truthiness of an optional string (`if material.texture:`): None
and the empty string are falsy, any other string is truthy.  This differs
from the `material.texture != None` test, which is true for the empty
string. -/
def pyTruthy (s : Option String) : Bool :=
  match s with
  | none => false
  | some s => decide (s ≠ "")

/-- generate_texture_attributes(gx, texture_name, material,
texture_offsets_list) (dsgx.py lines 165-176): the gx, texture_name and
offsets-list arguments are unused by the body (the offset append is commented
out in the source), so only the material is taken here. -/
def generate_texture_attributes (material : Material) : List Cmd :=
  let DEFAULT_OFFSET := 256 * 1024
  let DIRECT_TEXTURE := 7
  [teximage_param material.texture_size.1 material.texture_size.2
    DEFAULT_OFFSET DIRECT_TEXTURE,
   texpllt_base 0 0]

/-- generate_face_attributes(gx, face, model, texture_offsets_list)
(dsgx.py lines 255-269).  The flatten() of the nested result is carried out
in the embedding: the texture attributes are a two-command list or the single
clear command, followed by the polygon attributes and the two material
property commands. -/
def generate_face_attributes (face : Polygon) (model : Model) : List Cmd :=
  let material := model.materials face.material
  let flags := parse_material_flags face.material
  let scale := fun components => scale_components components 255
  let texture_attributes : List Cmd :=
    if pyTruthy material.texture then generate_texture_attributes material
    else [CLEAR_TEXTURE_PARAMETERS]
  let polygon_attributes := polygon_attr 1 1 1 1 0 1 0 0 1 0 0 1
    (((pyDictGet flags "alpha").map FlagVal.toInt).getD 31)
    (((pyDictGet flags "id").map FlagVal.toInt).getD 0)
  let material_properties := [dif_amb (scale material.diffuse)
      (scale material.ambient) false true,
    spe_emi (scale material.specular) (scale material.emit) false true]
  texture_attributes ++ [polygon_attributes] ++ material_properties

/-- A concrete untextured material used in scenario theorems. -/
def plainMaterial : Material :=
  ⟨none, (8, 8), [1/2, 1/2, 1/2], [0, 0, 0], [1, 1, 1], [0, 0, 0]⟩

/-- A model whose materials mapping sends every name to plainMaterial. -/
def scenarioModel : Model :=
  ⟨["default"], fun _ => plainMaterial, [], [], {}, none, []⟩

/-- A face using the flagged material name of the C7 scenario. -/
def flaggedFace : Polygon :=
  ⟨[0, 1, 2], "alpha=10,id=2|metal", [], (0, 0, 1), [], false⟩

/-- The same face with the plain material name "metal" (no flags). -/
def plainFace : Polygon :=
  ⟨[0, 1, 2], "metal", [], (0, 0, 1), [], false⟩

/-- The polygon-attribute command (list position 1, after the texture-clear
command) emitted for the flagged scenario face. -/
def flaggedAttrCmd : Cmd :=
  (generate_face_attributes flaggedFace scenarioModel).getD 1 (command 0 [])

/-- The polygon-attribute command emitted for the unflagged scenario face. -/
def plainAttrCmd : Cmd :=
  (generate_face_attributes plainFace scenarioModel).getD 1 (command 0 [])

/-- The dict returned by Model.bounding_box(self) (model.py lines 209-236):
x, y, z are the negative corner and wx, wy, wz the widths. -/
structure BoundingBox where
  x : ℚ
  y : ℚ
  z : ℚ
  wx : ℚ
  wy : ℚ
  wz : ℚ

/-- Model.bounding_box(self) (model.py lines 209-236): all six accumulators
start from zero and are folded over the active mesh's vertex locations. -/
def Model.bounding_box (model : Model) : BoundingBox :=
  let acc := model.vertices.foldl
    (fun (a : (ℚ × ℚ × ℚ) × (ℚ × ℚ × ℚ)) point =>
      ((min a.1.1 point.location.1, min a.1.2.1 point.location.2.1,
          min a.1.2.2 point.location.2.2),
       (max a.2.1 point.location.1, max a.2.2.1 point.location.2.1,
          max a.2.2.2 point.location.2.2)))
    ((0, 0, 0), (0, 0, 0))
  ⟨acc.1.1, acc.1.2.1, acc.1.2.2,
   acc.2.1 - acc.1.1, acc.2.2.1 - acc.1.2.1, acc.2.2.2 - acc.1.2.2⟩

/-- largest_coordinate = max(abs(bb["wx"]), abs(bb["wy"]), abs(bb["wz"]))
(dsgx.py line 331). -/
def largest_coordinate (model : Model) : ℚ :=
  let bb := model.bounding_box
  max |bb.wx| (max |bb.wy| |bb.wz|)

/-- determine_scale_factor(model) (dsgx.py lines 328-335); 7.9 is the rational
79/10 under the exact-rational float convention. -/
def determine_scale_factor (model : Model) : ℚ :=
  if largest_coordinate model > 79/10 then (79/10) / largest_coordinate model
  else 1

/-- A one-vertex model whose bounding box is wider than the 7.9 hardware
threshold, used as the C4 witness. -/
def scaleModel : Model :=
  ⟨["default"], fun _ => plainMaterial, [⟨(79/5, 0, 0), "default"⟩], [], {},
   none, []⟩

/-- The reader a given input file is dispatched to by model2dsgx.py. -/
inductive Reader where
  | fbx
  | obj
  | assimp
deriving DecidableEq

/-- str.rfind(c): highest index of the character, or -1 when absent. -/
def rfindChar (l : List Char) (c : Char) : Int :=
  match l.reverse.findIdx? (fun x => x = c) with
  | some i => (l.length : Int) - 1 - (i : Int)
  | none => -1

/-- file_extension(filename) = os.path.splitext(filename)[1]
(model2dsgx.py lines 65-66, posixpath.splitext): the extension starts at the
last dot after the last slash, unless every basename character before that
dot is itself a dot. -/
def file_extension (filename : String) : String :=
  let p := filename.toList
  let sepIndex := rfindChar p '/'
  let dotIndex := rfindChar p '.'
  if sepIndex < dotIndex then
    let basenameBeforeDot := (p.drop (sepIndex + 1).toNat).take (dotIndex - sepIndex - 1).toNat
    if basenameBeforeDot.any (fun ch => ch ≠ '.') then
      String.mk (p.drop dotIndex.toNat)
    else ""
  else ""

/-- The _readers dispatch table (model2dsgx.py lines 104-107). -/
def readersTable : List (String × Reader) :=
  [(".fbx", Reader.fbx), (".obj", Reader.obj)]

/-- known_file_type(filename) (model2dsgx.py lines 62-63). -/
def known_file_type (filename : String) : Bool :=
  readersTable.any (fun p => p.1 = file_extension filename)

/-- load_model(filename) (model2dsgx.py lines 68-72), reduced to which reader
the file is dispatched to: a known extension selects its reader from the
table, everything else falls back to read_using_assimp. -/
def load_model (filename : String) : Reader :=
  if known_file_type filename then
    ((readersTable.find? (fun p => p.1 = file_extension filename)).map
      Prod.snd).getD Reader.assimp
  else Reader.assimp

/-- The Emitter state (dsgx.py lines 575-579): accumulated commands, the
running word offset, and the running cycle estimate. -/
structure Emitter where
  commands : List Cmd
  offset : Nat
  cycles : Nat
deriving DecidableEq

/-- Emitter.__init__ (dsgx.py lines 576-579). -/
def Emitter.init : Emitter := ⟨[], 0, 0⟩

/-- Emitter.command(self, command, parameters) (dsgx.py lines 581-585): the
command is appended and the offset advances by one opcode word plus one word
per parameter.  The Python method also returns the cmd dict, which is the
appended ⟨c, parameters⟩. -/
def Emitter.command (e : Emitter) (c : Nat) (parameters : List Nat := []) : Emitter :=
  ⟨e.commands ++ [⟨c, parameters⟩], e.offset + 1 + parameters.length, e.cycles⟩

/-- Emitter.begin_vtxs(self, format) (dsgx.py lines 644-646). -/
def Emitter.begin_vtxs (e : Emitter) (format : Nat) : Emitter :=
  let e := e.command 0x40 [format &&& 0x3]
  { e with cycles := e.cycles + 1 }

/-- Emitter.vtx_16(self, x, y, z) (dsgx.py lines 651-666). -/
def Emitter.vtx_16 (e : Emitter) (x y z : ℚ) : Emitter :=
  let e := e.command 0x23 [
    pyAnd (pyInt (x * 2 ^ 12)) 0xFFFF ||| (pyAnd (pyInt (y * 2 ^ 12)) 0xFFFF <<< 16),
    pyAnd (pyInt (z * 2 ^ 12)) 0xFFFF]
  { e with cycles := e.cycles + 9 }

/-- Emitter.vtx_10(self, x, y, z) (dsgx.py lines 668-679). -/
def Emitter.vtx_10 (e : Emitter) (x y z : ℚ) : Emitter :=
  let e := e.command 0x24 [
    pyAnd (pyInt (x * 2 ^ 6)) 0x3FF ||| (pyAnd (pyInt (y * 2 ^ 6)) 0x3FF <<< 10) |||
      (pyAnd (pyInt (z * 2 ^ 6)) 0x3FF <<< 20)]
  { e with cycles := e.cycles + 8 }

/-- Emitter.polygon_attr(self, ...) (dsgx.py lines 690-720).  As in the
source, dot_polygons is accepted but never encoded, and the first term's
Python expression light0 & 0x1 << 0 parses as light0 & (0x1 << 0). -/
def Emitter.polygon_attr (e : Emitter) (light0 : Nat := 0) (light1 : Nat := 0)
    (light2 : Nat := 0) (light3 : Nat := 0) (mode : Nat := 0) (front : Nat := 1)
    (back : Nat := 0) (new_depth : Nat := 0) (farplane_intersecting : Nat := 1)
    (dot_polygons : Nat := 1) (depth_test : Nat := 0) (fog_enable : Nat := 1)
    (alpha : Int := 31) (polygon_id : Int := 0) : Emitter :=
  let attr := (light0 &&& (0x1 <<< 0)) + ((light1 &&& 0x1) <<< 1) +
    ((light2 &&& 0x1) <<< 2) + ((light3 &&& 0x1) <<< 3) + ((mode &&& 0x3) <<< 4) +
    ((back &&& 0x1) <<< 6) + ((front &&& 0x1) <<< 7) + ((new_depth &&& 0x1) <<< 11) +
    ((farplane_intersecting &&& 0x1) <<< 12) + ((depth_test &&& 0x1) <<< 14) +
    ((fog_enable &&& 0x1) <<< 15) + (pyAnd alpha 0x1F <<< 16) +
    (pyAnd polygon_id 0x3F <<< 24)
  let e := e.command 0x29 [attr]
  { e with cycles := e.cycles + 1 }

/-- Emitter.color(self, red, green, blue, use256) (dsgx.py lines 722-734);
channels are rationals, and pyInt is the identity on the integer channel
values the sources pass when use256 is false. -/
def Emitter.color (e : Emitter) (red green blue : ℚ) (use256 : Bool := false) : Emitter :=
  let r := if use256 then pyInt (red / 8) else pyInt red
  let b := if use256 then pyInt (blue / 8) else pyInt blue
  let g := if use256 then pyInt (green / 8) else pyInt green
  let e := e.command 0x20 [pyAnd r 0x1F + (pyAnd g 0x1F <<< 5) + (pyAnd b 0x1F <<< 10)]
  { e with cycles := e.cycles + 1 }

/-- Emitter.normal(self, x, y, z) (dsgx.py lines 736-743); the float literal
0.95 is the rational 19/20 under the exact-rational convention. -/
def Emitter.normal (e : Emitter) (x y z : ℚ) : Emitter :=
  let e := e.command 0x21 [
    pyAnd (pyInt ((x * (19/20)) * 2 ^ 9)) 0x3FF +
      (pyAnd (pyInt ((y * (19/20)) * 2 ^ 9)) 0x3FF <<< 10) +
      (pyAnd (pyInt ((z * (19/20)) * 2 ^ 9)) 0x3FF <<< 20)]
  { e with cycles := e.cycles + 9 }

/-- Emitter.dif_amb(self, diffuse, ambient, setvertex, use256) (dsgx.py lines
745-769). -/
def Emitter.dif_amb (e : Emitter) (diffuse ambient : List ℚ)
    (setvertex : Bool := false) (use256 : Bool := false) : Emitter :=
  let conv := fun (l : List ℚ) (i : Nat) =>
    if use256 then pyInt (l.getD i 0 / 8) else pyInt (l.getD i 0)
  let attr := pyAnd (conv diffuse 0) 0x1F + (pyAnd (conv diffuse 1) 0x1F <<< 5) +
    (pyAnd (conv diffuse 2) 0x1F <<< 10) + ((if setvertex then 1 else 0) <<< 15) +
    (pyAnd (conv ambient 0) 0x1F <<< 16) + (pyAnd (conv ambient 1) 0x1F <<< 21) +
    (pyAnd (conv ambient 2) 0x1F <<< 26)
  let e := e.command 0x30 [attr]
  { e with cycles := e.cycles + 4 }

/-- Emitter.spe_emi(self, specular, emit, use_specular_table, use256)
(dsgx.py lines 771-795). -/
def Emitter.spe_emi (e : Emitter) (specular emit : List ℚ)
    (use_specular_table : Bool := false) (use256 : Bool := false) : Emitter :=
  let conv := fun (l : List ℚ) (i : Nat) =>
    if use256 then pyInt (l.getD i 0 / 8) else pyInt (l.getD i 0)
  let attr := pyAnd (conv specular 0) 0x1F + (pyAnd (conv specular 1) 0x1F <<< 5) +
    (pyAnd (conv specular 2) 0x1F <<< 10) +
    ((if use_specular_table then 1 else 0) <<< 15) +
    (pyAnd (conv emit 0) 0x1F <<< 16) + (pyAnd (conv emit 1) 0x1F <<< 21) +
    (pyAnd (conv emit 2) 0x1F <<< 26)
  let e := e.command 0x31 [attr]
  { e with cycles := e.cycles + 4 }

/-- Emitter.push(self) (dsgx.py lines 797-799). -/
def Emitter.push (e : Emitter) : Emitter :=
  let e := e.command 0x11
  { e with cycles := e.cycles + 17 }

/-- Emitter.pop(self) (dsgx.py lines 801-803). -/
def Emitter.pop (e : Emitter) : Emitter :=
  let e := e.command 0x12 [0x1]
  { e with cycles := e.cycles + 36 }

/-- Emitter.mtx_mult_4x4(self, matrix) (dsgx.py lines 806-813). -/
def Emitter.mtx_mult_4x4 (e : Emitter) (matrix : Matrix4) : Emitter :=
  let e := e.command 0x18 [
    word32 (to_fixed_point matrix.a), word32 (to_fixed_point matrix.b),
    word32 (to_fixed_point matrix.c), word32 (to_fixed_point matrix.d),
    word32 (to_fixed_point matrix.e), word32 (to_fixed_point matrix.f),
    word32 (to_fixed_point matrix.g), word32 (to_fixed_point matrix.h),
    word32 (to_fixed_point matrix.i), word32 (to_fixed_point matrix.j),
    word32 (to_fixed_point matrix.k), word32 (to_fixed_point matrix.l),
    word32 (to_fixed_point matrix.m), word32 (to_fixed_point matrix.n),
    word32 (to_fixed_point matrix.o), word32 (to_fixed_point matrix.p)]
  { e with cycles := e.cycles + 35 }

/-- Emitter.mtx_scale(self, sx, sy, sz) (dsgx.py lines 815-821). -/
def Emitter.mtx_scale (e : Emitter) (sx sy sz : ℚ) : Emitter :=
  let e := e.command 0x1B [
    word32 (to_fixed_point sx), word32 (to_fixed_point sy),
    word32 (to_fixed_point sz)]
  { e with cycles := e.cycles + 22 }

/-- Emitter.texcoord(self, u, v) (dsgx.py lines 823-828). -/
def Emitter.texcoord (e : Emitter) (u v : ℚ) : Emitter :=
  let e := e.command 0x22 [
    pyAnd (pyInt (u * 2 ^ 4)) 0xFFFF ||| (pyAnd (pyInt (v * 2 ^ 4)) 0xFFFF <<< 16)]
  { e with cycles := e.cycles + 1 }

/-- Emitter.teximage_param(self, offset, width, height, format, ...) (dsgx.py
lines 830-856); the inline width/height while-loops compute exactly
texture_size_shift. -/
def Emitter.teximage_param (e : Emitter) (offset width height : Nat)
    (format : Nat := 0) (palette_transparency : Nat := 0)
    (transform_mode : Nat := 0) (u_repeat : Nat := 1) (v_repeat : Nat := 1)
    (u_flip : Nat := 0) (v_flip : Nat := 0) : Emitter :=
  let width_index := texture_size_shift width
  let height_index := texture_size_shift height
  let attr := ((offset / 8) &&& 0xFFFF) + ((u_repeat &&& 0x1) <<< 16) +
    ((v_repeat &&& 0x1) <<< 17) + ((u_flip &&& 0x1) <<< 18) +
    ((v_flip &&& 0x1) <<< 19) + ((width_index &&& 0x7) <<< 20) +
    ((height_index &&& 0x7) <<< 23) + ((format &&& 0x7) <<< 26) +
    ((palette_transparency &&& 0x1) <<< 29) + ((transform_mode &&& 0x3) <<< 30)
  let e := e.command 0x2A [attr]
  { e with cycles := e.cycles + 1 }

/-- Emitter.texpllt_base(self, offset, texture_format) (dsgx.py lines
859-868). -/
def Emitter.texpllt_base (e : Emitter) (offset : Nat) (texture_format : Nat) : Emitter :=
  let o := if texture_format = 2 then offset >>> 8 else offset >>> 16
  let e := e.command 0x2B [o &&& 0xFFF]
  { e with cycles := e.cycles + 1 }

/-- One Emitter method invocation, used to reason about arbitrary emitted
instruction sequences. -/
inductive GxOp where
  | begin_vtxs (format : Nat)
  | vtx_16 (x y z : ℚ)
  | vtx_10 (x y z : ℚ)
  | polygon_attr (light0 light1 light2 light3 mode front back new_depth
      farplane_intersecting dot_polygons depth_test fog_enable : Nat)
      (alpha polygon_id : Int)
  | color (red green blue : ℚ) (use256 : Bool)
  | normal (x y z : ℚ)
  | dif_amb (diffuse ambient : List ℚ) (setvertex use256 : Bool)
  | spe_emi (specular emit : List ℚ) (use_specular_table use256 : Bool)
  | push
  | pop
  | mtx_mult_4x4 (matrix : Matrix4)
  | mtx_scale (sx sy sz : ℚ)
  | texcoord (u v : ℚ)
  | teximage_param (offset width height format palette_transparency
      transform_mode u_repeat v_repeat u_flip v_flip : Nat)
  | texpllt_base (offset : Nat) (texture_format : Nat)

/-- Dispatch one method invocation to the Emitter. -/
def GxOp.apply (op : GxOp) (e : Emitter) : Emitter :=
  match op with
  | .begin_vtxs f => e.begin_vtxs f
  | .vtx_16 x y z => e.vtx_16 x y z
  | .vtx_10 x y z => e.vtx_10 x y z
  | .polygon_attr l0 l1 l2 l3 mo fr ba nd fi dp dt fe a pid =>
      e.polygon_attr l0 l1 l2 l3 mo fr ba nd fi dp dt fe a pid
  | .color r g b u => e.color r g b u
  | .normal x y z => e.normal x y z
  | .dif_amb d a s u => e.dif_amb d a s u
  | .spe_emi s em u1 u2 => e.spe_emi s em u1 u2
  | .push => e.push
  | .pop => e.pop
  | .mtx_mult_4x4 m => e.mtx_mult_4x4 m
  | .mtx_scale sx sy sz => e.mtx_scale sx sy sz
  | .texcoord u v => e.texcoord u v
  | .teximage_param o w hh f p t ur vr uf vf =>
      e.teximage_param o w hh f p t ur vr uf vf
  | .texpllt_base o f => e.texpllt_base o f

/-- The fixed per-method cycle cost added by each Emitter method (the
self.cycles increments in dsgx.py lines 640-868). -/
def GxOp.cycles : GxOp → Nat
  | .begin_vtxs _ => 1
  | .vtx_16 _ _ _ => 9
  | .vtx_10 _ _ _ => 8
  | .polygon_attr _ _ _ _ _ _ _ _ _ _ _ _ _ _ => 1
  | .color _ _ _ _ => 1
  | .normal _ _ _ => 9
  | .dif_amb _ _ _ _ => 4
  | .spe_emi _ _ _ _ => 4
  | .push => 17
  | .pop => 36
  | .mtx_mult_4x4 _ => 35
  | .mtx_scale _ _ _ => 22
  | .texcoord _ _ => 1
  | .teximage_param _ _ _ _ _ _ _ _ _ _ => 1
  | .texpllt_base _ _ => 1

/-- Run a sequence of method invocations against an Emitter state. -/
def Emitter.run (e : Emitter) (ops : List GxOp) : Emitter :=
  ops.foldl (fun e op => op.apply e) e

/-- The command most recently appended to the Emitter — the value each
Emitter method returns in Python. -/
def Emitter.lastCmd (e : Emitter) : Cmd :=
  e.commands.getLastD ⟨0, []⟩

/-- defaultdict(list) append: texture_offsets_list[k].append(v) and the
group-offset idiom (create the empty list when the key is missing, then
append). -/
def offsetsAppend (d : List (String × List Nat)) (k : String) (v : Nat) :
    List (String × List Nat) :=
  if d.any (fun p => p.1 = k) then
    d.map (fun p => if p.1 = k then (p.1, p.2 ++ [v]) else p)
  else d ++ [(k, [v])]

/-- write_texture_attributes(gx, texture_name, material, texture_offsets_list)
(dsgx.py lines 178-186), the original implementation wrapped by reconcile.
It records gx.offset + 1 under the texture name, emits the teximage and
palette-base commands through the Emitter, and returns the two created
commands; the reconcile wrapper also runs the pure generate_texture_attributes
whose result carries no state. -/
def write_texture_attributes (gx : Emitter) (texture_name : String)
    (material : Material) (texture_offsets_list : List (String × List Nat)) :
    Emitter × List (String × List Nat) × List Cmd :=
  let texture_offsets_list := offsetsAppend texture_offsets_list texture_name (gx.offset + 1)
  let size := material.texture_size
  let gx1 := gx.teximage_param (256 * 1024) size.1 size.2 7
  let gx2 := gx1.texpllt_base 0 0
  (gx2, texture_offsets_list, [gx1.lastCmd, gx2.lastCmd])

/-- write_face_attributes(gx, face, model, texture_offsets_list) (dsgx.py
lines 271-314), the original implementation wrapped by reconcile: it emits
through the Emitter and collects the created commands in gx_commands.  The
result is the final Emitter state, the updated texture offsets, and the
returned command list. -/
def write_face_attributes (gx : Emitter) (face : Polygon) (model : Model)
    (texture_offsets_list : List (String × List Nat)) :
    Emitter × List (String × List Nat) × List Cmd :=
  let material := model.materials face.material
  let firstStep : Emitter × List (String × List Nat) × List Cmd :=
    match material.texture with
    | some texture_name =>
        write_texture_attributes gx texture_name material texture_offsets_list
    | none =>
        let gx1 := gx.teximage_param 0 0 0 0
        (gx1, texture_offsets_list, [gx1.lastCmd])
  let gx := firstStep.1
  let texture_offsets_list := firstStep.2.1
  let gx_commands := firstStep.2.2
  let flags := parse_material_flags face.material
  let gx2 :=
    if flags ≠ [] then
      gx.polygon_attr 1 1 1 1 0 1 0 0 1 1 0 1
        (((pyDictGet flags "alpha").map FlagVal.toInt).getD 31)
        (((pyDictGet flags "id").map FlagVal.toInt).getD 0)
    else gx.polygon_attr 1 1 1 1
  let gx3 := gx2.dif_amb (material.diffuse.map (fun component => component * 255))
    (material.ambient.map (fun component => component * 255)) false true
  let gx4 := gx3.spe_emi (material.specular.map (fun component => component * 255))
    (material.emit.map (fun component => component * 255)) false true
  (gx4, texture_offsets_list, gx_commands ++ [gx2.lastCmd, gx3.lastCmd, gx4.lastCmd])

/-- The alpha value generate_face_attributes encodes for a face:
int(flags.get("alpha", 31)). -/
def faceAlpha (face : Polygon) : Int :=
  ((pyDictGet (parse_material_flags face.material) "alpha").map FlagVal.toInt).getD 31

/-- The polygon id generate_face_attributes encodes for a face:
int(flags.get("id", 0)). -/
def faceId (face : Polygon) : Int :=
  ((pyDictGet (parse_material_flags face.material) "id").map FlagVal.toInt).getD 0

/-- A face whose material flag alpha=128 overflows the 5-bit alpha field,
exposing the pack_bits mask slip. -/
def alphaOverflowFace : Polygon :=
  ⟨[0, 1, 2], "alpha=128|m", [], (0, 0, 1), [], false⟩

/-- An untextured material whose colors are all zero. -/
def zeroMaterial : Material :=
  ⟨none, (8, 8), [0, 0, 0], [0, 0, 0], [0, 0, 0], [0, 0, 0]⟩

/-- A model mapping every material name to zeroMaterial. -/
def zeroModel : Model :=
  ⟨["default"], fun _ => zeroMaterial, [], [], {}, none, []⟩

/-- A material whose texture is the empty string: not None, but falsy in
Python. -/
def emptyTexMaterial : Material :=
  ⟨some "", (8, 8), [0, 0, 0], [0, 0, 0], [0, 0, 0], [0, 0, 0]⟩

/-- A model mapping every material name to emptyTexMaterial. -/
def emptyTexModel : Model :=
  ⟨["default"], fun _ => emptyTexMaterial, [], [], {}, none, []⟩

/-- The word sequence a command occupies in the unpacked stream written by
Emitter.write: one opcode word (struct.pack("<BBBB", instruction, 0, 0, 0) is
the little-endian word whose value is the opcode byte) followed by the
parameter words. -/
def Cmd.words (c : Cmd) : List Nat := c.instruction :: c.params

/-- The word sequence of the whole instruction stream, which gx.offset
indexes (the length-prefix word Emitter.write prepends is not part of it). -/
def Emitter.words (e : Emitter) : List Nat := (e.commands.map Cmd.words).flatten

/-- write_normal(gx, normal) (dsgx.py lines 316-320): a missing normal only
logs a warning and emits nothing. -/
def write_normal (gx : Emitter) (normal : Option (ℚ × ℚ × ℚ)) : Emitter :=
  match normal with
  | none => gx
  | some n => gx.normal n.1 n.2.1 n.2.2

/-- write_vertex(gx, location, scale_factor, vtx10) (dsgx.py lines 322-326). -/
def write_vertex (gx : Emitter) (location : ℚ × ℚ × ℚ) (scale_factor : ℚ)
    (vtx10 : Bool := false) : Emitter :=
  if vtx10 then
    gx.vtx_10 (location.1 * scale_factor) (location.2.1 * scale_factor)
      (location.2.2 * scale_factor)
  else
    gx.vtx_16 (location.1 * scale_factor) (location.2.1 * scale_factor)
      (location.2.2 * scale_factor)

/-- start_polygon_list(gx, points_per_polygon) (dsgx.py lines 351-355);
vtxs_triangle = 0 and vtxs_quad = 1. -/
def start_polygon_list (gx : Emitter) (points_per_polygon : Nat) : Emitter :=
  let gx := if points_per_polygon = 3 then gx.begin_vtxs 0 else gx
  if points_per_polygon = 4 then gx.begin_vtxs 1 else gx

/-- write_sane_defaults(gx) (dsgx.py lines 337-349). -/
def write_sane_defaults (gx : Emitter) : Emitter :=
  let gx := gx.color 64 64 64 true
  let gx := gx.polygon_attr 1 1 1 1
  gx.dif_amb [192, 192, 192] [32, 32, 32] false true

/-- The writer's mutable compilation state during output_active_mesh: the
Emitter, self.group_offsets, self.texture_offsets, and the current_material
local of the two face-processing passes. -/
structure CompileState where
  gx : Emitter
  group_offsets : List (String × List Nat)
  texture_offsets : List (String × List Nat)
  current_material : Option String

/-- The per-face body of Writer.process_monogroup_faces (dsgx.py lines
377-400).  At the texcoord condition the source reads
model.materials[current_material], and current_material equals face.material
at that point. -/
def processMonoFace (model : Model) (scale_factor : ℚ) (vtx10 : Bool)
    (group : String) (polytype : Nat) (st : CompileState) (face : Polygon) :
    CompileState :=
  if face.vertexGroup model = group ∧ ¬ face.isMixed model ∧
      face.vertices.length = polytype then
    let st :=
      if st.current_material ≠ some face.material then
        let r := write_face_attributes st.gx face model st.texture_offsets
        { st with
          current_material := some face.material
          gx := start_polygon_list r.1 polytype
          texture_offsets := r.2.1 }
      else st
    let gx :=
      if ¬ face.smooth_shading then
        st.gx.normal face.face_normal.1 face.face_normal.2.1 face.face_normal.2.2
      else st.gx
    let gx := (List.range face.vertices.length).foldl (fun gx p =>
      let gx :=
        if pyTruthy (model.materials face.material).texture then
          gx.texcoord ((face.uvlist.getD p (0, 0)).1 *
              ((model.materials face.material).texture_size.1 : ℚ))
            ((1 - (face.uvlist.getD p (0, 0)).2) *
              ((model.materials face.material).texture_size.2 : ℚ))
        else gx
      let gx :=
        if face.smooth_shading then write_normal gx (face.vertex_normals.getD p none)
        else gx
      write_vertex gx (model.vertices.getD (face.vertices.getD p 0) default).location
        scale_factor vtx10) gx
    { st with gx := gx }
  else st

/-- The per-group body of Writer.process_monogroup_faces (dsgx.py lines
361-401): push, record the parameter offset for non-default groups, load the
identity placeholder matrix, run both polytype passes, pop. -/
def processMonoGroup (model : Model) (scale_factor : ℚ) (vtx10 : Bool)
    (st : CompileState) (group : String) : CompileState :=
  let st := { st with gx := st.gx.push }
  let st :=
    if group ≠ "default" then
      { st with group_offsets := offsetsAppend st.group_offsets group (st.gx.offset + 1) }
    else st
  let st := { st with gx := st.gx.mtx_mult_4x4 {} }
  let st := [3, 4].foldl (fun st polytype =>
    let st := { st with gx := start_polygon_list st.gx polytype }
    model.polygons.foldl (processMonoFace model scale_factor vtx10 group polytype) st) st
  { st with gx := st.gx.pop }

/-- Writer.process_monogroup_faces (dsgx.py lines 358-401). -/
def process_monogroup_faces (model : Model) (scale_factor : ℚ) (vtx10 : Bool)
    (st : CompileState) : CompileState :=
  let st := { st with current_material := none }
  model.groups.foldl (processMonoGroup model scale_factor vtx10) st

/-- The per-point body of Writer.process_polygroup_faces (dsgx.py lines
417-435): push, record this point's group offset, identity placeholder,
normal and vertex, pop. -/
def processPolyPoint (model : Model) (scale_factor : ℚ) (vtx10 : Bool)
    (face : Polygon) (st : CompileState) (p : Nat) : CompileState :=
  let point_index := face.vertices.getD p 0
  let st := { st with gx := st.gx.push }
  let st := { st with
    group_offsets := offsetsAppend st.group_offsets
      (model.vertices.getD point_index default).group (st.gx.offset + 1) }
  let st := { st with gx := st.gx.mtx_mult_4x4 {} }
  let gx :=
    if face.smooth_shading then write_normal st.gx (face.vertex_normals.getD p none)
    else st.gx
  let gx := write_vertex gx (model.vertices.getD point_index default).location
    scale_factor vtx10
  { st with gx := gx.pop }

/-- The per-face body of Writer.process_polygroup_faces (dsgx.py lines
408-435). -/
def processPolyFace (model : Model) (scale_factor : ℚ) (vtx10 : Bool)
    (polytype : Nat) (st : CompileState) (face : Polygon) : CompileState :=
  if face.vertices.length = polytype ∧ face.isMixed model then
    let st :=
      if st.current_material ≠ some face.material then
        let r := write_face_attributes st.gx face model st.texture_offsets
        { st with
          current_material := some face.material
          gx := start_polygon_list r.1 polytype
          texture_offsets := r.2.1 }
      else st
    let st :=
      if ¬ face.smooth_shading then
        { st with
          gx := st.gx.normal face.face_normal.1 face.face_normal.2.1
            face.face_normal.2.2 }
      else st
    (List.range face.vertices.length).foldl
      (processPolyPoint model scale_factor vtx10 face) st
  else st

/-- Writer.process_polygroup_faces (dsgx.py lines 403-435). -/
def process_polygroup_faces (model : Model) (scale_factor : ℚ) (vtx10 : Bool)
    (st : CompileState) : CompileState :=
  let st := { st with current_material := none }
  [3, 4].foldl (fun st polytype =>
    let st := { st with gx := start_polygon_list st.gx polytype }
    model.polygons.foldl (processPolyFace model scale_factor vtx10 polytype) st) st

/-- The command-emission part of Writer.output_active_mesh (dsgx.py lines
449-473): fresh Emitter, sane defaults, fresh offset tables, scale factor,
push, global matrix, optional inverse scale, the two face passes, pop.  The
byte serialization of the finished gx into the DSGX chunk is not modelled;
the recorded offsets index gx's word stream. -/
def output_active_mesh_state (model : Model) (vtx10 : Bool) : CompileState :=
  let gx := write_sane_defaults Emitter.init
  let st : CompileState := ⟨gx, [], [], none⟩
  let scale_factor := determine_scale_factor model
  let st := { st with gx := st.gx.push }
  let st := { st with gx := st.gx.mtx_mult_4x4 model.global_matrix }
  let st :=
    if scale_factor ≠ 1 then
      { st with
        gx := st.gx.mtx_scale (1 / scale_factor) (1 / scale_factor)
          (1 / scale_factor) }
    else st
  let st := process_monogroup_faces model scale_factor vtx10 st
  let st := process_polygroup_faces model scale_factor vtx10 st
  { st with gx := st.gx.pop }

/-- A model with one non-default bone group and no polygons, used as the C2
witness. -/
def armModel : Model :=
  ⟨["default", "arm"], fun _ => zeroMaterial, [], [], {}, none, []⟩

/-- One Emitter state extends another when its command list only appends, and
the offset-equals-word-count invariant is carried along. -/
def Emitter.Step (e e' : Emitter) : Prop :=
  (∃ l, e'.commands = e.commands ++ l) ∧
  (e.offset = e.words.length → e'.offset = e'.words.length)

/-- The compilation invariant behind the Reference Table: the Emitter offset
counts words, and every recorded group offset points at the first parameter
word (value 4096, the 1.19.12 encoding of 1.0 leading the identity
placeholder) of a matrix-multiply instruction whose opcode word 0x18 sits one
word earlier. -/
def WordsOK (st : CompileState) : Prop :=
  st.gx.offset = st.gx.words.length ∧
  ∀ g offs, (g, offs) ∈ st.group_offsets → ∀ off ∈ offs,
    off < st.gx.words.length ∧ st.gx.words.getD off 0 = 4096 ∧
    st.gx.words.getD (off - 1) 0 = 24

/-- Lexicographic comparison of char-code lists, Python's string ordering
(strings compare by code point). -/
def charListLe : List Char → List Char → Bool
  | [], _ => true
  | _ :: _, [] => false
  | a :: as, b :: bs =>
    if a.toNat < b.toNat then true
    else if b.toNat < a.toNat then false
    else charListLe as bs

/-- The order Python's sorted() applies to strings. -/
def pyStrOrder : String → String → Prop :=
  fun a b => charListLe a.toList b.toList = true

instance : DecidableRel pyStrOrder :=
  fun a b => inferInstanceAs (Decidable (charListLe a.toList b.toList = true))

/-- sorted(keys) on strings: a stable sort by the code-point order. -/
def pySorted (l : List String) : List String := l.insertionSort pyStrOrder

/-- Serialize every element of a list, failing (struct.error) as soon as one
element fails: the for-loop accumulation of struct.pack results. -/
def mapOpt {α β : Type} (f : α → Option β) : List α → Option (List β)
  | [] => some []
  | a :: l =>
    match f a with
    | none => none
    | some b =>
      match mapOpt f l with
      | none => none
      | some bs => some (b :: bs)

/-- The `node_name in self.group_offsets` test and the
`self.group_offsets[node_name]` lookup. -/
def lookupOffsets (d : List (String × List Nat)) (k : String) : Option (List Nat) :=
  (d.find? (fun p => decide (p.1 = k))).map Prod.snd

/-- The bytes output_active_bones appends for one non-"default" node name
(dsgx.py lines 493-509): the 32-byte name field, then either the offset count
followed by the offsets (4 little-endian bytes each) when the name has
recorded group offsets, or the literal count 0 (struct.pack("<I", 0) =
[0, 0, 0, 0]) when it has none. -/
def boneRecord (group_offsets : List (String × List Nat)) (node_name : String) :
    Option (List Nat) :=
  match lookupOffsets group_offsets node_name with
  | some offs =>
    match packU32 offs.length with
    | none => none
    | some cnt =>
      match mapOpt packU32 offs with
      | none => none
      | some words => some (to_dsgx_string (some node_name) ++ cnt ++ words.flatten)
  | none => some (to_dsgx_string (some node_name) ++ [0, 0, 0, 0])

/-- Writer.output_active_bones (dsgx.py lines 483-510): the BONE chunk payload
built from the first animation in insertion order.  `none` stands for the two
ways no payload is produced: the early return when the model has no
animations, and a struct.error from an out-of-range pack.  The count field
serializes len(some_animation.nodes.keys()); the per-bone loop runs over the
sorted node names, skipping "default". -/
def output_active_bones (model : Model)
    (group_offsets : List (String × List Nat)) : Option (List Nat) :=
  match model.animations with
  | [] => none
  | (_, some_animation) :: _ =>
    match packU32 some_animation.nodes.length with
    | none => none
    | some count =>
      match mapOpt (boneRecord group_offsets)
          ((pySorted (some_animation.nodes.map Prod.fst)).filter
            (fun n => decide (n ≠ "default"))) with
      | none => none
      | some records =>
        some (to_dsgx_string model.active_mesh ++ count ++ records.flatten)

/-- An animation whose node names include the reserved "default", used as the
C9 counterexample. -/
def boneAnim : Animation := ⟨[("arm", []), ("default", [])], 0⟩

/-- A model carrying boneAnim as its only animation. -/
def boneModelEx : Model :=
  ⟨["default"], fun _ => zeroMaterial, [], [], {}, some "mesh",
   [("anim", boneAnim)]⟩

/-- An animation with two bones and no "default" node, used as the C9 amended
witness. -/
def boneAnimOk : Animation := ⟨[("zeta", []), ("arm", [])], 0⟩

/-- A model carrying boneAnimOk as its only animation. -/
def boneModelOk : Model :=
  ⟨["default"], fun _ => zeroMaterial, [], [], {}, some "mesh",
   [("anim", boneAnimOk)]⟩

/-- A reference table recording one offset for "arm" and none for "zeta". -/
def boneGoEx : List (String × List Nat) := [("arm", [50])]

/-- The BONE payload written for boneModelOk with boneGoEx: mesh name, count 2,
then the "arm" record (count 1, offset 50) and the "zeta" record (count 0). -/
def bonePayloadEx : List Nat :=
  to_dsgx_string (some "mesh") ++ [2, 0, 0, 0] ++
    ((to_dsgx_string (some "arm") ++ [1, 0, 0, 0] ++ [50, 0, 0, 0]) ++
      ((to_dsgx_string (some "zeta") ++ [0, 0, 0, 0]) ++ []))

theorem readU32_cons8 (a b c d w0 w1 w2 w3 : Nat) (rest : List Nat) :
    readU32 (a :: b :: c :: d :: w0 :: w1 :: w2 :: w3 :: rest) 4 =
      w0 + 256 * w1 + 65536 * w2 + 16777216 * w3 := rfl

/-- C3: for every 4-character chunk name and every payload of L bytes,
wrap_chunk returns a serialized chunk whose total length (header + payload +
padding) is a whole multiple of 4 bytes and whose recorded little-endian
word-count field equals ceil(L/4). -/
theorem wrap_chunk_aligned (name : String) (data : List Nat) (chunk : List Nat)
    (h : wrap_chunk name data = some chunk) :
    chunk.length % 4 = 0 ∧ readU32 chunk 4 = (data.length + 3) / 4 := by
  unfold wrap_chunk at h
  split at h
  case isFalse => exact absurd h (by simp)
  case isTrue hn =>
    dsimp only at h
    unfold packU32 at h
    split at h
    case isFalse => exact absurd h (by simp)
    case isTrue hw =>
      simp only [Option.map_some', Option.some.injEq] at h
      have hname : (asciiBytes name).length = 4 := by simpa [asciiBytes] using hn
      obtain ⟨a, b, c, d, habcd⟩ : ∃ a b c d, asciiBytes name = [a, b, c, d] := by
        rcases e : asciiBytes name with _ | ⟨a, t⟩
        · rw [e] at hname; simp at hname
        rcases t with _ | ⟨b, t⟩
        · rw [e] at hname; simp at hname
        rcases t with _ | ⟨c, t⟩
        · rw [e] at hname; simp at hname
        rcases t with _ | ⟨d, t⟩
        · rw [e] at hname; simp at hname
        rcases t with _ | ⟨x, t⟩
        · exact ⟨a, b, c, d, rfl⟩
        · rw [e] at hname
          simp only [List.length_cons, List.length_nil] at hname
          omega
      rw [habcd] at h
      subst h
      simp only [List.cons_append, List.nil_append, List.append_assoc]
      rw [readU32_cons8]
      have hp : padding_to data.length 4 = (4 - data.length % 4) % 4 := by
        unfold padding_to
        split <;> omega
      simp only [WORD_SIZE_BYTES] at hw ⊢
      simp only [List.length_cons, List.length_append, List.length_replicate, hp] at hw ⊢
      omega

/-- C3 witness: wrap_chunk at the concrete name "TEST" and payload [1,2,3]. -/
theorem wrap_chunk_aligned_witness :
    ([84, 69, 83, 84, 1, 0, 0, 0, 1, 2, 3, 0] : List Nat).length % 4 = 0 ∧
    readU32 [84, 69, 83, 84, 1, 0, 0, 0, 1, 2, 3, 0] 4 = (([1, 2, 3] : List Nat).length + 3) / 4 :=
  wrap_chunk_aligned "TEST" [1, 2, 3] [84, 69, 83, 84, 1, 0, 0, 0, 1, 2, 3, 0] (by rfl)

/-- C1 (code bug): pack_bits computes the field mask as
`(bit_count << bit_count) - 1` instead of the intended `(1 << bit_count) - 1`,
so a value is not masked to its field width, and the packed result can even
exceed 2^32.  Concretely: for the field spanning bits 16..20 (width 5) the
value 128 survives the mask and lands on bit 23, where the claimed behaviour
would mask it to 128 mod 32 = 0; and for the field spanning bits 24..29 the
value 256 yields 2^32, refuting result < 2^32. -/
theorem pack_bits_mask_bug :
    pack_bits [(BitKey.range 16 20, 128)] = 8388608 ∧
    pack_bits [(BitKey.range 16 20, 128)] ≠ 128 % 2 ^ 5 * 2 ^ 16 ∧
    pack_bits [(BitKey.range 0 1, 4)] = 4 ∧
    pack_bits [(BitKey.range 0 1, 4)] ≠ 4 % 2 ^ 2 * 2 ^ 0 ∧
    pack_bits [(BitKey.range 24 29, 256)] = 4294967296 ∧
    ¬ pack_bits [(BitKey.range 24 29, 256)] < 2 ^ 32 := by
  refine ⟨by decide, by decide, by decide, by decide, by decide, by decide⟩

/-- C8 counterexample: serializing a 40-character string as a fixed-length
string field does not fail; to_dsgx_string returns a 32-byte serialized field
holding the first 31 bytes of the string followed by a null terminator, so
the claimed immediate build failure never happens. -/
theorem to_dsgx_string_no_failure :
    to_dsgx_string (some (String.mk (List.replicate 40 'a'))) =
      List.replicate 31 97 ++ [0] ∧
    (to_dsgx_string (some (String.mk (List.replicate 40 'a')))).length = 32 := by
  constructor
  · rfl
  · rfl

/-- C8 amended: for every string whose ASCII encoding exceeds the 31 content
bytes of the 32-byte fixed field, to_dsgx_string silently truncates to the
first 31 bytes plus a null terminator and always returns exactly 32 bytes
(struct's `31s` conversion truncates; it does not raise). -/
theorem to_dsgx_string_truncates (s : String) (h : 31 < s.length) :
    to_dsgx_string (some s) = (asciiBytes s).take 31 ++ [0] ∧
    (to_dsgx_string (some s)).length = 32 := by
  have hlen : (asciiBytes s).length = s.length := by
    rw [asciiBytes, List.length_map]
    rfl
  constructor
  · unfold to_dsgx_string
    simp only [Option.getD_some]
    rw [show 31 - (asciiBytes s).length = 0 by omega]
    simp
  · unfold to_dsgx_string
    simp only [Option.getD_some, List.length_append, List.length_take,
      List.length_replicate, List.length_cons, List.length_nil]
    omega

/-- C8 amended witness: the 40-character string of letters a. -/
theorem to_dsgx_string_truncates_witness :
    31 < (String.mk (List.replicate 40 'a')).length ∧
    (to_dsgx_string (some (String.mk (List.replicate 40 'a'))) =
      (asciiBytes (String.mk (List.replicate 40 'a'))).take 31 ++ [0] ∧
    (to_dsgx_string (some (String.mk (List.replicate 40 'a')))).length = 32) :=
  ⟨by decide, to_dsgx_string_truncates (String.mk (List.replicate 40 'a')) (by decide)⟩

/-- C7: parsing the material name "alpha=10,id=2|metal" yields exactly the
flag mapping alpha to "10" and id to "2", and the polygon-attribute
instruction (opcode 0x29) emitted for a face using that material encodes
alpha = 10 in bits 16..20 and polygon_id = 2 in bits 24..29, where a face
with the unflagged material encodes the defaults 31 and 0. -/
theorem material_flags_scenario :
    parse_material_flags_new "alpha=10,id=2|metal" =
      [("alpha", FlagVal.str "10"), ("id", FlagVal.str "2")] ∧
    flaggedAttrCmd.instruction = 0x29 ∧
    flaggedAttrCmd.params.getD 0 0 / 2 ^ 16 % 32 = 10 ∧
    flaggedAttrCmd.params.getD 0 0 / 2 ^ 24 % 64 = 2 ∧
    plainAttrCmd.instruction = 0x29 ∧
    plainAttrCmd.params.getD 0 0 / 2 ^ 16 % 32 = 31 ∧
    plainAttrCmd.params.getD 0 0 / 2 ^ 24 % 64 = 0 := by
  refine ⟨by decide, by decide, by decide, by decide, by decide, by decide, by decide⟩

/-- C4: the computed scale factor is 1 unless the largest absolute
bounding-box extent exceeds the hardware threshold 7.9, in which case it is
7.9 divided by that largest extent, and scaling the bounding box of a model
whose largest extent exceeded 7.9 by the computed factor yields a largest
extent of exactly 7.9 (the exact-rational reading of within floating
rounding). -/
theorem determine_scale_factor_correct (model : Model) :
    (¬ largest_coordinate model > 79/10 → determine_scale_factor model = 1) ∧
    (largest_coordinate model > 79/10 →
      determine_scale_factor model = (79/10) / largest_coordinate model ∧
      max |determine_scale_factor model * model.bounding_box.wx|
        (max |determine_scale_factor model * model.bounding_box.wy|
             |determine_scale_factor model * model.bounding_box.wz|) = 79/10) := by
  constructor
  · intro h
    simp [determine_scale_factor, h]
  · intro h
    have hs : determine_scale_factor model = (79/10) / largest_coordinate model := by
      simp [determine_scale_factor, h]
    refine ⟨hs, ?_⟩
    have hL0 : (0:ℚ) < largest_coordinate model := lt_trans (by norm_num) h
    have hsnn : (0:ℚ) ≤ determine_scale_factor model := by
      rw [hs]
      positivity
    rw [abs_mul, abs_mul, abs_mul, abs_of_nonneg hsnn]
    rw [← mul_max_of_nonneg _ _ hsnn, ← mul_max_of_nonneg _ _ hsnn]
    rw [show max |model.bounding_box.wx| (max |model.bounding_box.wy|
      |model.bounding_box.wz|) = largest_coordinate model from rfl]
    rw [hs, div_mul_cancel₀]
    exact ne_of_gt hL0

/-- C4 witness: the one-vertex model with extent 79/5 scales back to exactly
79/10. -/
theorem determine_scale_factor_correct_witness :
    largest_coordinate scaleModel > 79/10 ∧
    (determine_scale_factor scaleModel = (79/10) / largest_coordinate scaleModel ∧
     max |determine_scale_factor scaleModel * scaleModel.bounding_box.wx|
       (max |determine_scale_factor scaleModel * scaleModel.bounding_box.wy|
            |determine_scale_factor scaleModel * scaleModel.bounding_box.wz|) = 79/10) := by
  have hgt : largest_coordinate scaleModel > 79/10 := by
    norm_num [largest_coordinate, Model.bounding_box, scaleModel, min_def,
      max_def, abs_of_nonneg]
  exact ⟨hgt, (determine_scale_factor_correct scaleModel).2 hgt⟩

/-- C5 counterexample: the unrecognized extension ".xyz" is not rejected
before core processing; load_model dispatches the file to the assimp fallback
reader instead of terminating with a diagnostic. -/
theorem unknown_extension_not_rejected :
    file_extension "model.xyz" = ".xyz" ∧
    known_file_type "model.xyz" = false ∧
    load_model "model.xyz" = Reader.assimp := by
  refine ⟨by decide, by decide, by decide⟩

/-- C5 amended: an input filename whose extension is not a recognized model
format (.fbx or .obj) is not rejected; load_model falls back to dispatching
the file to the assimp reader. -/
theorem unknown_extension_falls_back (filename : String)
    (h : known_file_type filename = false) :
    load_model filename = Reader.assimp := by
  simp [load_model, h]

/-- C5 amended witness: the filename "model.xyz". -/
theorem unknown_extension_falls_back_witness :
    load_model "model.xyz" = Reader.assimp :=
  unknown_extension_falls_back "model.xyz" (by decide)

theorem pyAnd_coe (n m : Nat) : pyAnd (n : Int) m = n &&& m := by
  simp [pyAnd, Int.natCast_nonneg]
  rfl

theorem land_eq_self_of_lt (n k m : Nat) (hn : n < 2 ^ k)
    (hm : ∀ i, i < k → m.testBit i = true) : n &&& m = n := by
  apply Nat.eq_of_testBit_eq
  intro i
  rw [Nat.testBit_and]
  by_cases hi : i < k
  · rw [hm i hi, Bool.and_true]
  · have hfalse : n.testBit i = false := by
      apply Nat.testBit_lt_two_pow
      calc n < 2 ^ k := hn
        _ ≤ 2 ^ i := Nat.pow_le_pow_right (by omega) (by omega)
    rw [hfalse, Bool.false_and]

theorem pyAnd_mask_eq (a : Int) (k m : Nat) (h0 : 0 ≤ a) (hk : a < 2 ^ k)
    (hm : ∀ i, i < k → m.testBit i = true) : pyAnd a m = a.toNat := by
  rw [pyAnd, if_pos h0]
  apply land_eq_self_of_lt _ k _ _ hm
  rw [Int.toNat_lt h0]
  exact_mod_cast hk

theorem lor_shift_eq_add (x a k : Nat) (hx : x < 2 ^ k) :
    x ||| a <<< k = x + a * 2 ^ k := by
  rw [Nat.shiftLeft_eq, Nat.lor_comm, show a * 2 ^ k = 2 ^ k * a from Nat.mul_comm _ _,
    ← Nat.mul_add_lt_is_or hx a]
  omega

theorem lastCmd_command_cycles (e : Emitter) (c : Nat) (ps : List Nat) (cy : Nat) :
    ({ e.command c ps with cycles := cy } : Emitter).lastCmd = ⟨c, ps⟩ := by
  simp [Emitter.command, Emitter.lastCmd, List.getLastD_concat]

theorem GxOp.apply_cycles (op : GxOp) (e : Emitter) :
    (op.apply e).cycles = e.cycles + op.cycles := by
  cases op <;> rfl

theorem Emitter.run_cycles : ∀ (ops : List GxOp) (e : Emitter),
    (e.run ops).cycles = e.cycles + (ops.map GxOp.cycles).sum
  | [], e => by simp [Emitter.run]
  | op :: rest, e => by
    have h1 : e.run (op :: rest) = (GxOp.apply op e).run rest := rfl
    rw [h1, Emitter.run_cycles rest (GxOp.apply op e), GxOp.apply_cycles]
    simp only [List.map_cons, List.sum_cons]
    omega

/-- C6: the total estimated cycle count of any emitted instruction sequence
equals the sum of the fixed per-opcode costs over the instruction multiset
(vertex-16 costs 9, vertex-10 costs 8, matrix-multiply costs 35, push costs
17, pop costs 36, texture-image-parameter costs 1, begin-vertex-list costs
1), and permuting the sequence leaves the total unchanged. -/
theorem cycle_cost_additive (ops : List GxOp) :
    (Emitter.init.run ops).cycles = (ops.map GxOp.cycles).sum ∧
    (∀ x y z : ℚ, (GxOp.vtx_16 x y z).cycles = 9) ∧
    (∀ x y z : ℚ, (GxOp.vtx_10 x y z).cycles = 8) ∧
    (∀ m : Matrix4, (GxOp.mtx_mult_4x4 m).cycles = 35) ∧
    GxOp.push.cycles = 17 ∧
    GxOp.pop.cycles = 36 ∧
    (∀ o w hh f p t ur vr uf vf : Nat,
      (GxOp.teximage_param o w hh f p t ur vr uf vf).cycles = 1) ∧
    (∀ f : Nat, (GxOp.begin_vtxs f).cycles = 1) ∧
    (∀ ops' : List GxOp, List.Perm ops ops' →
      (Emitter.init.run ops).cycles = (Emitter.init.run ops').cycles) := by
  refine ⟨by rw [Emitter.run_cycles]; exact Nat.zero_add _, fun _ _ _ => rfl, fun _ _ _ => rfl,
    fun _ => rfl, rfl, rfl, fun _ _ _ _ _ _ _ _ _ _ => rfl, fun _ => rfl,
    fun ops' hperm => ?_⟩
  rw [Emitter.run_cycles, Emitter.run_cycles]
  rw [List.Perm.sum_eq (List.Perm.map GxOp.cycles hperm)]

/-- C6 witness: the two-instruction sequence push, pop and its swap. -/
theorem cycle_cost_additive_witness :
    (Emitter.init.run [GxOp.push, GxOp.pop]).cycles =
      ([GxOp.push, GxOp.pop].map GxOp.cycles).sum ∧
    (Emitter.init.run [GxOp.push, GxOp.pop]).cycles =
      (Emitter.init.run [GxOp.pop, GxOp.push]).cycles :=
  ⟨(cycle_cost_additive [GxOp.push, GxOp.pop]).1,
   (cycle_cost_additive [GxOp.push, GxOp.pop]).2.2.2.2.2.2.2.2 [GxOp.pop, GxOp.push]
     (List.Perm.swap GxOp.pop GxOp.push [])⟩

theorem orShapePoly (C a b : Nat) (hC : C < 65536) (ha : a < 32) :
    (C ||| a <<< 16) ||| b <<< 24 = C + a * 2 ^ 16 + b * 2 ^ 24 := by
  rw [lor_shift_eq_add C a 16 (by omega),
    lor_shift_eq_add (C + a * 2 ^ 16) b 24 (by omega)]

theorem orShapeTex (C w h f : Nat) (hC : C < 1048576) (hw : w < 8) (hh : h < 8)
    (hf : f < 8) :
    ((C ||| w <<< 20) ||| h <<< 23) ||| f <<< 26 =
      C + w * 2 ^ 20 + h * 2 ^ 23 + f * 2 ^ 26 := by
  rw [lor_shift_eq_add C w 20 (by omega),
    lor_shift_eq_add (C + w * 2 ^ 20) h 23 (by omega),
    lor_shift_eq_add (C + w * 2 ^ 20 + h * 2 ^ 23) f 26 (by omega)]

theorem orShapeColor (v0 v1 v2 v3 v4 v5 : Nat) (h0 : v0 < 32) (h1 : v1 < 32)
    (h2 : v2 < 32) (h3 : v3 < 32) (h4 : v4 < 32) :
    (((((v0 ||| v1 <<< 5) ||| v2 <<< 10) ||| 0) ||| v3 <<< 16) ||| v4 <<< 21) ||| v5 <<< 26 =
      v0 + v1 * 2 ^ 5 + v2 * 2 ^ 10 + 0 + v3 * 2 ^ 16 + v4 * 2 ^ 21 + v5 * 2 ^ 26 := by
  rw [Nat.or_zero]
  rw [lor_shift_eq_add v0 v1 5 (by omega),
    lor_shift_eq_add (v0 + v1 * 2 ^ 5) v2 10 (by omega),
    lor_shift_eq_add (v0 + v1 * 2 ^ 5 + v2 * 2 ^ 10) v3 16 (by omega),
    lor_shift_eq_add (v0 + v1 * 2 ^ 5 + v2 * 2 ^ 10 + v3 * 2 ^ 16) v4 21 (by omega),
    lor_shift_eq_add (v0 + v1 * 2 ^ 5 + v2 * 2 ^ 10 + v3 * 2 ^ 16 + v4 * 2 ^ 21) v5 26
      (by omega)]
  omega

theorem emitter_polygon_attr_lastCmd (e : Emitter) (dp : Nat) (a p : Int) :
    (e.polygon_attr 1 1 1 1 0 1 0 0 1 dp 0 1 a p).lastCmd =
      ⟨0x29, [37007 + (pyAnd a 31 <<< 16) + (pyAnd p 63 <<< 24)]⟩ := by
  rw [show e.polygon_attr 1 1 1 1 0 1 0 0 1 dp 0 1 a p =
    { e.command 0x29 [37007 + (pyAnd a 31 <<< 16) + (pyAnd p 63 <<< 24)] with
      cycles := e.cycles + 1 } from rfl]
  exact lastCmd_command_cycles e 0x29 _ _

theorem polygon_attr_pack_eval (a p : Int) :
    polygon_attr 1 1 1 1 0 1 0 0 1 0 0 1 a p =
      ⟨0x29, [(37007 ||| (pyAnd a 159 <<< 16)) ||| (pyAnd p 383 <<< 24)]⟩ := rfl

theorem polygon_attr_agree (gx : Emitter) (dp : Nat) (a p : Int)
    (ha0 : 0 ≤ a) (ha : a < 32) (hp0 : 0 ≤ p) (hp : p < 64) :
    (gx.polygon_attr 1 1 1 1 0 1 0 0 1 dp 0 1 a p).lastCmd =
      polygon_attr 1 1 1 1 0 1 0 0 1 0 0 1 a p := by
  rw [emitter_polygon_attr_lastCmd, polygon_attr_pack_eval]
  rw [pyAnd_mask_eq a 5 159 ha0 (by omega) (by decide),
    pyAnd_mask_eq a 5 31 ha0 (by omega) (by decide),
    pyAnd_mask_eq p 6 383 hp0 (by omega) (by decide),
    pyAnd_mask_eq p 6 63 hp0 (by omega) (by decide)]
  have haN : a.toNat < 32 := by omega
  have hpN : p.toNat < 64 := by omega
  rw [orShapePoly 37007 a.toNat p.toNat (by omega) haN]
  simp only [Cmd.mk.injEq, List.cons.injEq, and_true, true_and, Nat.shiftLeft_eq]

theorem emitter_teximage_lastCmd (e : Emitter) (w h : Nat) :
    (e.teximage_param (256 * 1024) w h 7).lastCmd =
      ⟨0x2A, [229376 + ((texture_size_shift w &&& 7) <<< 20) +
        ((texture_size_shift h &&& 7) <<< 23) + 469762048 + 0 + 0]⟩ := by
  rw [show e.teximage_param (256 * 1024) w h 7 =
    { e.command 0x2A [229376 + ((texture_size_shift w &&& 7) <<< 20) +
      ((texture_size_shift h &&& 7) <<< 23) + 469762048 + 0 + 0] with
      cycles := e.cycles + 1 } from rfl]
  exact lastCmd_command_cycles e 0x2A _ _

theorem gen_teximage_pack_eval (w h : Nat) :
    teximage_param w h (256 * 1024) 7 =
      ⟨0x2A, [((((229376 ||| (pyAnd (texture_size_shift w) 23 <<< 20)) |||
        (pyAnd (texture_size_shift h) 23 <<< 23)) ||| 469762048) ||| 0) ||| 0]⟩ := rfl

theorem teximage_agree (e : Emitter) (w h : Nat)
    (hw : texture_size_shift w < 8) (hh : texture_size_shift h < 8) :
    (e.teximage_param (256 * 1024) w h 7).lastCmd =
      teximage_param w h (256 * 1024) 7 := by
  rw [emitter_teximage_lastCmd, gen_teximage_pack_eval]
  rw [pyAnd_coe (texture_size_shift w) 23, pyAnd_coe (texture_size_shift h) 23]
  rw [land_eq_self_of_lt (texture_size_shift w) 3 23 (by omega) (by decide),
    land_eq_self_of_lt (texture_size_shift h) 3 23 (by omega) (by decide),
    land_eq_self_of_lt (texture_size_shift w) 3 7 (by omega) (by decide),
    land_eq_self_of_lt (texture_size_shift h) 3 7 (by omega) (by decide)]
  rw [show (469762048 : Nat) = 7 <<< 26 from rfl]
  rw [Nat.or_zero, Nat.or_zero]
  rw [orShapeTex 229376 (texture_size_shift w) (texture_size_shift h) 7
    (by omega) hw hh (by omega)]
  simp only [Cmd.mk.injEq, List.cons.injEq, and_true, true_and, Nat.shiftLeft_eq]
  omega

theorem texpllt_agree (e : Emitter) :
    (e.texpllt_base 0 0).lastCmd = texpllt_base 0 0 := by
  rw [show e.texpllt_base 0 0 =
    { e.command 0x2B [0] with cycles := e.cycles + 1 } from rfl]
  rw [lastCmd_command_cycles]
  rfl

theorem teximage_clear_agree (e : Emitter) :
    (e.teximage_param 0 0 0 0).lastCmd = CLEAR_TEXTURE_PARAMETERS := by
  rw [show e.teximage_param 0 0 0 0 =
    { e.command 0x2A [196608] with cycles := e.cycles + 1 } from rfl]
  rw [lastCmd_command_cycles]
  rfl

theorem conv_eq (L : List ℚ) (i : Nat) :
    (L.map (fun component => pyInt (component * (1 / 8)))).getD i 0 =
      pyInt (L.getD i 0 / 8) := by
  by_cases h : i < L.length
  · rw [List.getD_eq_getElem _ _ (by simpa using h), List.getElem_map,
      List.getD_eq_getElem _ _ h, mul_one_div]
  · rw [List.getD_eq_default _ _ (by simpa using Nat.le_of_not_lt h),
      List.getD_eq_default _ _ (Nat.le_of_not_lt h)]
    rw [show (0 : ℚ) / 8 = 0 from by norm_num]
    rfl

theorem color_val_bound (l : List ℚ) (i : Nat)
    (h : ∀ v ∈ l, 0 ≤ pyInt (v * 255 / 8) ∧ pyInt (v * 255 / 8) < 32) :
    0 ≤ pyInt ((l.map (fun component => component * 255)).getD i 0 / 8) ∧
    pyInt ((l.map (fun component => component * 255)).getD i 0 / 8) < 32 := by
  by_cases hi : i < l.length
  · rw [List.getD_eq_getElem _ _ (by simpa using hi), List.getElem_map]
    exact h _ (List.getElem_mem hi)
  · rw [List.getD_eq_default _ _ (by simpa using Nat.le_of_not_lt hi)]
    rw [show (0 : ℚ) / 8 = 0 from by norm_num]
    refine ⟨by decide, by decide⟩

theorem emitter_dif_amb_lastCmd (e : Emitter) (diffuse ambient : List ℚ) :
    (e.dif_amb (diffuse.map (fun component => component * 255))
      (ambient.map (fun component => component * 255)) false true).lastCmd =
    ⟨0x30, [pyAnd (pyInt ((diffuse.map (fun component => component * 255)).getD 0 0 / 8)) 31 +
      (pyAnd (pyInt ((diffuse.map (fun component => component * 255)).getD 1 0 / 8)) 31 <<< 5) +
      (pyAnd (pyInt ((diffuse.map (fun component => component * 255)).getD 2 0 / 8)) 31 <<< 10) +
      0 +
      (pyAnd (pyInt ((ambient.map (fun component => component * 255)).getD 0 0 / 8)) 31 <<< 16) +
      (pyAnd (pyInt ((ambient.map (fun component => component * 255)).getD 1 0 / 8)) 31 <<< 21) +
      (pyAnd (pyInt ((ambient.map (fun component => component * 255)).getD 2 0 / 8)) 31 <<< 26)]⟩ := by
  rw [show e.dif_amb (diffuse.map (fun component => component * 255))
      (ambient.map (fun component => component * 255)) false true =
    { e.command 0x30 [pyAnd (pyInt ((diffuse.map (fun component => component * 255)).getD 0 0 / 8)) 31 +
      (pyAnd (pyInt ((diffuse.map (fun component => component * 255)).getD 1 0 / 8)) 31 <<< 5) +
      (pyAnd (pyInt ((diffuse.map (fun component => component * 255)).getD 2 0 / 8)) 31 <<< 10) +
      0 +
      (pyAnd (pyInt ((ambient.map (fun component => component * 255)).getD 0 0 / 8)) 31 <<< 16) +
      (pyAnd (pyInt ((ambient.map (fun component => component * 255)).getD 1 0 / 8)) 31 <<< 21) +
      (pyAnd (pyInt ((ambient.map (fun component => component * 255)).getD 2 0 / 8)) 31 <<< 26)] with
      cycles := e.cycles + 4 } from rfl]
  exact lastCmd_command_cycles e 0x30 _ _

theorem gen_dif_amb_pack_eval (diffuse ambient : List ℚ) :
    dif_amb (scale_components diffuse 255) (scale_components ambient 255) false true =
      ⟨0x30, [((((((0 ||| pyAnd ((diffuse.map (fun component => component * 255)).map
          (fun component => pyInt (component * (1 / 8))) |>.getD 0 0) 159) |||
        (pyAnd ((diffuse.map (fun component => component * 255)).map
          (fun component => pyInt (component * (1 / 8))) |>.getD 1 0) 159 <<< 5)) |||
        (pyAnd ((diffuse.map (fun component => component * 255)).map
          (fun component => pyInt (component * (1 / 8))) |>.getD 2 0) 159 <<< 10)) |||
        0) |||
        (pyAnd ((ambient.map (fun component => component * 255)).map
          (fun component => pyInt (component * (1 / 8))) |>.getD 0 0) 159 <<< 16)) |||
        (pyAnd ((ambient.map (fun component => component * 255)).map
          (fun component => pyInt (component * (1 / 8))) |>.getD 1 0) 159 <<< 21)) |||
        (pyAnd ((ambient.map (fun component => component * 255)).map
          (fun component => pyInt (component * (1 / 8))) |>.getD 2 0) 159 <<< 26)]⟩ := rfl

theorem dif_amb_agree (e : Emitter) (diffuse ambient : List ℚ)
    (hd : ∀ v ∈ diffuse, 0 ≤ pyInt (v * 255 / 8) ∧ pyInt (v * 255 / 8) < 32)
    (ha : ∀ v ∈ ambient, 0 ≤ pyInt (v * 255 / 8) ∧ pyInt (v * 255 / 8) < 32) :
    (e.dif_amb (diffuse.map (fun component => component * 255))
      (ambient.map (fun component => component * 255)) false true).lastCmd =
      dif_amb (scale_components diffuse 255) (scale_components ambient 255) false true := by
  rw [emitter_dif_amb_lastCmd, gen_dif_amb_pack_eval]
  rw [conv_eq (diffuse.map (fun component => component * 255)) 0,
    conv_eq (diffuse.map (fun component => component * 255)) 1,
    conv_eq (diffuse.map (fun component => component * 255)) 2,
    conv_eq (ambient.map (fun component => component * 255)) 0,
    conv_eq (ambient.map (fun component => component * 255)) 1,
    conv_eq (ambient.map (fun component => component * 255)) 2]
  have hd0 := color_val_bound diffuse 0 hd
  have hd1 := color_val_bound diffuse 1 hd
  have hd2 := color_val_bound diffuse 2 hd
  have ha0 := color_val_bound ambient 0 ha
  have ha1 := color_val_bound ambient 1 ha
  have ha2 := color_val_bound ambient 2 ha
  rw [pyAnd_mask_eq _ 5 159 hd0.1 (by omega) (by decide),
    pyAnd_mask_eq _ 5 159 hd1.1 (by omega) (by decide),
    pyAnd_mask_eq _ 5 159 hd2.1 (by omega) (by decide),
    pyAnd_mask_eq _ 5 159 ha0.1 (by omega) (by decide),
    pyAnd_mask_eq _ 5 159 ha1.1 (by omega) (by decide),
    pyAnd_mask_eq _ 5 159 ha2.1 (by omega) (by decide),
    pyAnd_mask_eq _ 5 31 hd0.1 (by omega) (by decide),
    pyAnd_mask_eq _ 5 31 hd1.1 (by omega) (by decide),
    pyAnd_mask_eq _ 5 31 hd2.1 (by omega) (by decide),
    pyAnd_mask_eq _ 5 31 ha0.1 (by omega) (by decide),
    pyAnd_mask_eq _ 5 31 ha1.1 (by omega) (by decide),
    pyAnd_mask_eq _ 5 31 ha2.1 (by omega) (by decide)]
  rw [Nat.zero_or]
  rw [orShapeColor _ _ _ _ _ _ (by omega) (by omega) (by omega) (by omega) (by omega)]
  simp only [Cmd.mk.injEq, List.cons.injEq, and_true, true_and, Nat.shiftLeft_eq]

theorem emitter_spe_emi_lastCmd (e : Emitter) (specular emit : List ℚ) :
    (e.spe_emi (specular.map (fun component => component * 255))
      (emit.map (fun component => component * 255)) false true).lastCmd =
    ⟨0x31, [pyAnd (pyInt ((specular.map (fun component => component * 255)).getD 0 0 / 8)) 31 +
      (pyAnd (pyInt ((specular.map (fun component => component * 255)).getD 1 0 / 8)) 31 <<< 5) +
      (pyAnd (pyInt ((specular.map (fun component => component * 255)).getD 2 0 / 8)) 31 <<< 10) +
      0 +
      (pyAnd (pyInt ((emit.map (fun component => component * 255)).getD 0 0 / 8)) 31 <<< 16) +
      (pyAnd (pyInt ((emit.map (fun component => component * 255)).getD 1 0 / 8)) 31 <<< 21) +
      (pyAnd (pyInt ((emit.map (fun component => component * 255)).getD 2 0 / 8)) 31 <<< 26)]⟩ := by
  rw [show e.spe_emi (specular.map (fun component => component * 255))
      (emit.map (fun component => component * 255)) false true =
    { e.command 0x31 [pyAnd (pyInt ((specular.map (fun component => component * 255)).getD 0 0 / 8)) 31 +
      (pyAnd (pyInt ((specular.map (fun component => component * 255)).getD 1 0 / 8)) 31 <<< 5) +
      (pyAnd (pyInt ((specular.map (fun component => component * 255)).getD 2 0 / 8)) 31 <<< 10) +
      0 +
      (pyAnd (pyInt ((emit.map (fun component => component * 255)).getD 0 0 / 8)) 31 <<< 16) +
      (pyAnd (pyInt ((emit.map (fun component => component * 255)).getD 1 0 / 8)) 31 <<< 21) +
      (pyAnd (pyInt ((emit.map (fun component => component * 255)).getD 2 0 / 8)) 31 <<< 26)] with
      cycles := e.cycles + 4 } from rfl]
  exact lastCmd_command_cycles e 0x31 _ _

theorem gen_spe_emi_pack_eval (specular emit : List ℚ) :
    spe_emi (scale_components specular 255) (scale_components emit 255) false true =
      ⟨0x31, [((((((0 ||| pyAnd ((specular.map (fun component => component * 255)).map
          (fun component => pyInt (component * (1 / 8))) |>.getD 0 0) 159) |||
        (pyAnd ((specular.map (fun component => component * 255)).map
          (fun component => pyInt (component * (1 / 8))) |>.getD 1 0) 159 <<< 5)) |||
        (pyAnd ((specular.map (fun component => component * 255)).map
          (fun component => pyInt (component * (1 / 8))) |>.getD 2 0) 159 <<< 10)) |||
        0) |||
        (pyAnd ((emit.map (fun component => component * 255)).map
          (fun component => pyInt (component * (1 / 8))) |>.getD 0 0) 159 <<< 16)) |||
        (pyAnd ((emit.map (fun component => component * 255)).map
          (fun component => pyInt (component * (1 / 8))) |>.getD 1 0) 159 <<< 21)) |||
        (pyAnd ((emit.map (fun component => component * 255)).map
          (fun component => pyInt (component * (1 / 8))) |>.getD 2 0) 159 <<< 26)]⟩ := rfl

theorem spe_emi_agree (e : Emitter) (specular emit : List ℚ)
    (hs : ∀ v ∈ specular, 0 ≤ pyInt (v * 255 / 8) ∧ pyInt (v * 255 / 8) < 32)
    (he : ∀ v ∈ emit, 0 ≤ pyInt (v * 255 / 8) ∧ pyInt (v * 255 / 8) < 32) :
    (e.spe_emi (specular.map (fun component => component * 255))
      (emit.map (fun component => component * 255)) false true).lastCmd =
      spe_emi (scale_components specular 255) (scale_components emit 255) false true := by
  rw [emitter_spe_emi_lastCmd, gen_spe_emi_pack_eval]
  rw [conv_eq (specular.map (fun component => component * 255)) 0,
    conv_eq (specular.map (fun component => component * 255)) 1,
    conv_eq (specular.map (fun component => component * 255)) 2,
    conv_eq (emit.map (fun component => component * 255)) 0,
    conv_eq (emit.map (fun component => component * 255)) 1,
    conv_eq (emit.map (fun component => component * 255)) 2]
  have hs0 := color_val_bound specular 0 hs
  have hs1 := color_val_bound specular 1 hs
  have hs2 := color_val_bound specular 2 hs
  have he0 := color_val_bound emit 0 he
  have he1 := color_val_bound emit 1 he
  have he2 := color_val_bound emit 2 he
  rw [pyAnd_mask_eq _ 5 159 hs0.1 (by omega) (by decide),
    pyAnd_mask_eq _ 5 159 hs1.1 (by omega) (by decide),
    pyAnd_mask_eq _ 5 159 hs2.1 (by omega) (by decide),
    pyAnd_mask_eq _ 5 159 he0.1 (by omega) (by decide),
    pyAnd_mask_eq _ 5 159 he1.1 (by omega) (by decide),
    pyAnd_mask_eq _ 5 159 he2.1 (by omega) (by decide),
    pyAnd_mask_eq _ 5 31 hs0.1 (by omega) (by decide),
    pyAnd_mask_eq _ 5 31 hs1.1 (by omega) (by decide),
    pyAnd_mask_eq _ 5 31 hs2.1 (by omega) (by decide),
    pyAnd_mask_eq _ 5 31 he0.1 (by omega) (by decide),
    pyAnd_mask_eq _ 5 31 he1.1 (by omega) (by decide),
    pyAnd_mask_eq _ 5 31 he2.1 (by omega) (by decide)]
  rw [Nat.zero_or]
  rw [orShapeColor _ _ _ _ _ _ (by omega) (by omega) (by omega) (by omega) (by omega)]
  simp only [Cmd.mk.injEq, List.cons.injEq, and_true, true_and, Nat.shiftLeft_eq]

/-- C10 counterexample: for the face with material "alpha=128|m" (which
exists in the materials mapping), the original write_face_attributes and the
reimplemented generate_face_attributes return different instruction lists
(the old path masks alpha with 0x1F giving bits 16..20 = 0, the new pack_bits
path lets 128 reach bit 23), so the reconcile assertion fails on this
input. -/
theorem face_attributes_reconcile_fails :
    (write_face_attributes Emitter.init alphaOverflowFace scenarioModel []).2.2 ≠
      generate_face_attributes alphaOverflowFace scenarioModel := by
  decide

theorem pyTruthy_none : pyTruthy none = false := rfl

theorem pyTruthy_some (s : String) (h : s ≠ "") : pyTruthy (some s) = true := by
  simp [pyTruthy, h]

/-- A second reconcile divergence, caused by the mismatched texture tests
rather than the mask: an empty-string texture name is falsy in Python, so
generate_face_attributes (if material.texture) emits the clear-texture
command, while write_face_attributes (material.texture != None) takes the
textured branch and emits teximage/texpllt, so the returned lists differ and
the reconcile assertion fails on such materials too. -/
theorem empty_texture_reconcile_fails :
    (write_face_attributes Emitter.init plainFace emptyTexModel []).2.2 ≠
      generate_face_attributes plainFace emptyTexModel := by
  decide

/-- C10 amended: write_face_attributes and generate_face_attributes return
equal instruction lists for every face whose material exists in the mapping,
provided the texture name is not the empty string (empty is falsy in Python,
so the two texture tests — truthiness vs != None — disagree there) and the
encoded values fit their hardware fields: the parsed alpha flag lies in
0..31, the parsed id flag in 0..63, every scaled color component truncates
into the 5-bit range, and the texture size indices fit 3 bits. -/
theorem write_face_attributes_agrees (gx : Emitter) (face : Polygon)
    (model : Model) (tex : List (String × List Nat))
    (ha0 : 0 ≤ faceAlpha face) (ha : faceAlpha face < 32)
    (hp0 : 0 ≤ faceId face) (hp : faceId face < 64)
    (hdif : ∀ v ∈ (model.materials face.material).diffuse,
      0 ≤ pyInt (v * 255 / 8) ∧ pyInt (v * 255 / 8) < 32)
    (hamb : ∀ v ∈ (model.materials face.material).ambient,
      0 ≤ pyInt (v * 255 / 8) ∧ pyInt (v * 255 / 8) < 32)
    (hspec : ∀ v ∈ (model.materials face.material).specular,
      0 ≤ pyInt (v * 255 / 8) ∧ pyInt (v * 255 / 8) < 32)
    (hemit : ∀ v ∈ (model.materials face.material).emit,
      0 ≤ pyInt (v * 255 / 8) ∧ pyInt (v * 255 / 8) < 32)
    (hw : texture_size_shift (model.materials face.material).texture_size.1 < 8)
    (hh : texture_size_shift (model.materials face.material).texture_size.2 < 8)
    (htex : (model.materials face.material).texture ≠ some "") :
    (write_face_attributes gx face model tex).2.2 =
      generate_face_attributes face model := by
  cases htex2 : (model.materials face.material).texture with
  | none =>
    by_cases hf : parse_material_flags face.material = []
    · simp only [write_face_attributes, generate_face_attributes,
        write_texture_attributes, generate_texture_attributes, htex2, hf,
        pyTruthy_none, Bool.false_eq_true, if_false, ite_false, ne_eq,
        not_true_eq_false, List.cons_append, List.nil_append, List.cons.injEq,
        and_true, pyDictGet, List.find?_nil, Option.map_none', Option.getD_none]
      refine ⟨teximage_clear_agree gx, ?_, ?_, ?_⟩
      · exact polygon_attr_agree _ 1 31 0 (by decide) (by decide) (by decide) (by decide)
      · exact dif_amb_agree _ _ _ hdif hamb
      · exact spe_emi_agree _ _ _ hspec hemit
    · simp only [write_face_attributes, generate_face_attributes,
        write_texture_attributes, generate_texture_attributes, htex2, hf,
        pyTruthy_none, Bool.false_eq_true, if_false, ite_false, ite_true,
        ne_eq, not_false_eq_true, if_true, List.cons_append, List.nil_append,
        List.cons.injEq, and_true]
      refine ⟨teximage_clear_agree gx, ?_, ?_, ?_⟩
      · exact polygon_attr_agree _ 1 _ _ ha0 ha hp0 hp
      · exact dif_amb_agree _ _ _ hdif hamb
      · exact spe_emi_agree _ _ _ hspec hemit
  | some tname =>
    have htr : pyTruthy (some tname) = true :=
      pyTruthy_some tname (fun h => htex (by rw [htex2, h]))
    by_cases hf : parse_material_flags face.material = []
    · simp only [write_face_attributes, generate_face_attributes,
        write_texture_attributes, generate_texture_attributes, htex2, htr, hf,
        if_true, ite_true, ne_eq, not_true_eq_false,
        if_false, ite_false, List.cons_append, List.nil_append,
        List.cons.injEq, and_true, pyDictGet, List.find?_nil,
        Option.map_none', Option.getD_none]
      refine ⟨teximage_agree gx _ _ hw hh, texpllt_agree _, ?_, ?_, ?_⟩
      · exact polygon_attr_agree _ 1 31 0 (by decide) (by decide) (by decide) (by decide)
      · exact dif_amb_agree _ _ _ hdif hamb
      · exact spe_emi_agree _ _ _ hspec hemit
    · simp only [write_face_attributes, generate_face_attributes,
        write_texture_attributes, generate_texture_attributes, htex2, htr, hf,
        if_true, ite_true, ne_eq, not_false_eq_true,
        List.cons_append, List.nil_append, List.cons.injEq, and_true]
      refine ⟨teximage_agree gx _ _ hw hh, texpllt_agree _, ?_, ?_, ?_⟩
      · exact polygon_attr_agree _ 1 _ _ ha0 ha hp0 hp
      · exact dif_amb_agree _ _ _ hdif hamb
      · exact spe_emi_agree _ _ _ hspec hemit

/-- C10 amended witness: the unflagged untextured face over the zero-color
model, where both implementations agree. -/
theorem write_face_attributes_agrees_witness :
    (write_face_attributes Emitter.init plainFace zeroModel []).2.2 =
      generate_face_attributes plainFace zeroModel := by
  have hcol : ∀ v ∈ ([0, 0, 0] : List ℚ),
      0 ≤ pyInt (v * 255 / 8) ∧ pyInt (v * 255 / 8) < 32 := by
    intro v hv
    have hv0 : v = 0 := by
      simp only [List.mem_cons, List.not_mem_nil, or_false] at hv
      rcases hv with h | h | h <;> exact h
    subst hv0
    rw [show (0 : ℚ) * 255 / 8 = 0 from by norm_num]
    exact ⟨by decide, by decide⟩
  exact write_face_attributes_agrees Emitter.init plainFace zeroModel []
    (by decide) (by decide) (by decide) (by decide) hcol hcol hcol hcol
    (by decide) (by decide) (by decide)

theorem Emitter.words_append (e : Emitter) (c : Nat) (ps : List Nat) :
    (e.command c ps).words = e.words ++ c :: ps := by
  unfold Emitter.words Emitter.command
  simp [Cmd.words]

theorem step_refl (e : Emitter) : e.Step e :=
  ⟨⟨[], by simp⟩, fun h => h⟩

theorem step_trans {a b c : Emitter} (h1 : a.Step b) (h2 : b.Step c) : a.Step c := by
  obtain ⟨⟨l1, hl1⟩, ho1⟩ := h1
  obtain ⟨⟨l2, hl2⟩, ho2⟩ := h2
  exact ⟨⟨l1 ++ l2, by rw [hl2, hl1, List.append_assoc]⟩, fun h => ho2 (ho1 h)⟩

theorem step_command (e : Emitter) (c : Nat) (ps : List Nat) :
    e.Step (e.command c ps) := by
  refine ⟨⟨[⟨c, ps⟩], rfl⟩, fun h0 => ?_⟩
  show (e.command c ps).offset = (e.command c ps).words.length
  rw [Emitter.words_append, List.length_append, List.length_cons]
  show e.offset + 1 + ps.length = _
  omega

theorem step_set_cycles (e : Emitter) (k : Nat) :
    e.Step { e with cycles := k } :=
  ⟨⟨[], by simp⟩, fun h => h⟩

theorem step_method (e : Emitter) (c : Nat) (ps : List Nat) (k : Nat) :
    e.Step { e.command c ps with cycles := k } :=
  step_trans (step_command e c ps) (step_set_cycles _ _)

theorem step_ite (e : Emitter) (C : Prop) [inst : Decidable C] (f g : Emitter)
    (hf : e.Step f) (hg : e.Step g) : e.Step (if C then f else g) := by
  split
  · exact hf
  · exact hg

theorem step_foldl {α : Type} (f : Emitter → α → Emitter)
    (hf : ∀ (e : Emitter) (a : α), e.Step (f e a)) :
    ∀ (l : List α) (e : Emitter), e.Step (l.foldl f e) := by
  intro l
  induction l with
  | nil => intro e; exact step_refl e
  | cons a t ih => intro e; exact step_trans (hf e a) (ih (f e a))

theorem step_begin_vtxs (e : Emitter) (f : Nat) : e.Step (e.begin_vtxs f) :=
  step_method e 0x40 _ _

theorem step_write_normal (gx : Emitter) (n : Option (ℚ × ℚ × ℚ)) :
    gx.Step (write_normal gx n) := by
  cases n with
  | none => exact step_refl gx
  | some v => exact step_method gx 0x21 _ _

theorem step_write_vertex (gx : Emitter) (loc : ℚ × ℚ × ℚ) (sf : ℚ) (v10 : Bool) :
    gx.Step (write_vertex gx loc sf v10) := by
  unfold write_vertex
  split
  · exact step_method gx 0x24 _ _
  · exact step_method gx 0x23 _ _

theorem step_start_polygon_list (gx : Emitter) (n : Nat) :
    gx.Step (start_polygon_list gx n) := by
  unfold start_polygon_list
  exact step_trans
    (step_ite gx (n = 3) (gx.begin_vtxs 0) gx (step_begin_vtxs gx 0) (step_refl gx))
    (step_ite _ (n = 4) _ _ (step_begin_vtxs _ 1) (step_refl _))

theorem step_write_texture_attributes (gx : Emitter) (tn : String) (m : Material)
    (tol : List (String × List Nat)) :
    gx.Step (write_texture_attributes gx tn m tol).1 := by
  unfold write_texture_attributes
  exact step_trans (step_method gx 0x2A _ _) (step_method _ 0x2B _ _)

theorem step_write_face_attributes (gx : Emitter) (face : Polygon) (model : Model)
    (tol : List (String × List Nat)) :
    gx.Step (write_face_attributes gx face model tol).1 := by
  rcases htex : (model.materials face.material).texture with _ | tname
  · simp only [write_face_attributes, htex]
    exact step_trans (step_method gx 0x2A _ _)
      (step_trans (step_ite _ _ _ _ (step_method _ 0x29 _ _) (step_method _ 0x29 _ _))
        (step_trans (step_method _ 0x30 _ _) (step_method _ 0x31 _ _)))
  · simp only [write_face_attributes, htex]
    exact step_trans (step_write_texture_attributes gx tname _ tol)
      (step_trans (step_ite _ _ _ _ (step_method _ 0x29 _ _) (step_method _ 0x29 _ _))
        (step_trans (step_method _ 0x30 _ _) (step_method _ 0x31 _ _)))

theorem wordsOK_foldl {α : Type} (f : CompileState → α → CompileState)
    (hf : ∀ st a, WordsOK st → WordsOK (f st a)) :
    ∀ (l : List α) (st : CompileState), WordsOK st → WordsOK (l.foldl f st) := by
  intro l
  induction l with
  | nil => intro st h; exact h
  | cons a t ih => intro st h; exact ih (f st a) (hf st a h)

theorem wordsOK_gx (st : CompileState) (gx' : Emitter)
    (to' : List (String × List Nat)) (cm' : Option String)
    (h : st.gx.Step gx') (hok : WordsOK st) :
    WordsOK ⟨gx', st.group_offsets, to', cm'⟩ := by
  obtain ⟨⟨l, hl⟩, ho⟩ := h
  obtain ⟨hoff, hrec⟩ := hok
  have hw : gx'.words = st.gx.words ++ (l.map Cmd.words).flatten := by
    unfold Emitter.words
    rw [hl, List.map_append, List.flatten_append]
  refine ⟨ho hoff, ?_⟩
  intro g offs hmem off hoffmem
  obtain ⟨hlt, h1, h2⟩ := hrec g offs hmem off hoffmem
  refine ⟨?_, ?_, ?_⟩
  · rw [hw, List.length_append]
    omega
  · rw [hw, List.getD_append _ _ _ _ hlt]
    exact h1
  · rw [hw, List.getD_append _ _ _ _ (by omega : off - 1 < st.gx.words.length)]
    exact h2

theorem Emitter.words_set_cycles (x : Emitter) (k : Nat) :
    ({ x with cycles := k } : Emitter).words = x.words := rfl

theorem mtx_identity_words (e : Emitter) :
    (e.mtx_mult_4x4 {}).words = e.words ++
      [24, 4096, 0, 0, 0, 0, 4096, 0, 0, 0, 0, 4096, 0, 0, 0, 0, 4096] := by
  have h1 : word32 (to_fixed_point 1) = 4096 := by
    unfold to_fixed_point
    rw [show (1 : ℚ) * 2 ^ (12 : Nat) = 4096 from by norm_num]
    rfl
  have h0 : word32 (to_fixed_point 0) = 0 := by
    unfold to_fixed_point
    rw [show (0 : ℚ) * 2 ^ (12 : Nat) = 0 from by norm_num]
    rfl
  simp only [Emitter.mtx_mult_4x4]
  rw [Emitter.words_set_cycles, Emitter.words_append, h1, h0]

theorem offsetsAppend_mem (d : List (String × List Nat)) (k : String) (v : Nat)
    (g : String) (offs : List Nat) (h : (g, offs) ∈ offsetsAppend d k v)
    (off : Nat) (hoff : off ∈ offs) :
    (∃ offs0, (g, offs0) ∈ d ∧ off ∈ offs0) ∨ off = v := by
  unfold offsetsAppend at h
  split at h
  · obtain ⟨p, hp, hpe⟩ := List.mem_map.1 h
    by_cases hk : p.1 = k
    · rw [if_pos hk] at hpe
      have hg : p.1 = g := congrArg Prod.fst hpe
      have ho : p.2 ++ [v] = offs := congrArg Prod.snd hpe
      rw [← ho] at hoff
      rcases List.mem_append.1 hoff with h2 | h2
      · refine Or.inl ⟨p.2, ?_, h2⟩
        rw [← hg]
        simpa using hp
      · simp only [List.mem_singleton] at h2
        exact Or.inr h2
    · rw [if_neg hk] at hpe
      exact Or.inl ⟨offs, hpe ▸ hp, hoff⟩
  · rcases List.mem_append.1 h with h1 | h1
    · exact Or.inl ⟨offs, h1, hoff⟩
    · simp only [List.mem_singleton, Prod.mk.injEq] at h1
      rw [h1.2] at hoff
      simp only [List.mem_singleton] at hoff
      exact Or.inr hoff

theorem wordsOK_record_mtx (st : CompileState) (g : String) (hok : WordsOK st) :
    WordsOK ⟨st.gx.mtx_mult_4x4 {},
      offsetsAppend st.group_offsets g (st.gx.offset + 1),
      st.texture_offsets, st.current_material⟩ := by
  obtain ⟨hoff, hrec⟩ := hok
  have hw := mtx_identity_words st.gx
  have hlen : (st.gx.mtx_mult_4x4 {}).words.length = st.gx.words.length + 17 := by
    rw [hw, List.length_append]
    rfl
  refine ⟨?_, ?_⟩
  · show (st.gx.mtx_mult_4x4 {}).offset = (st.gx.mtx_mult_4x4 {}).words.length
    have ho : (st.gx.mtx_mult_4x4 {}).offset = st.gx.offset + 1 + 16 := rfl
    rw [ho, hlen, hoff]
  · intro g' offs hmem off hoffmem
    rcases offsetsAppend_mem st.group_offsets g (st.gx.offset + 1) g' offs hmem
        off hoffmem with ⟨offs0, h0, hin⟩ | hv
    · obtain ⟨hlt, h1, h2⟩ := hrec g' offs0 h0 off hin
      refine ⟨?_, ?_, ?_⟩
      · rw [hlen]
        omega
      · rw [hw, List.getD_append _ _ _ _ hlt]
        exact h1
      · rw [hw, List.getD_append _ _ _ _ (by omega : off - 1 < st.gx.words.length)]
        exact h2
    · subst hv
      refine ⟨?_, ?_, ?_⟩
      · rw [hlen, hoff]
        omega
      · rw [hw, hoff, List.getD_append_right _ _ _ _ (by omega),
          show st.gx.words.length + 1 - st.gx.words.length = 1 from by omega]
        rfl
      · rw [hw, hoff,
          show st.gx.words.length + 1 - 1 = st.gx.words.length from by omega,
          List.getD_append_right _ _ _ _ (le_refl _), Nat.sub_self]
        rfl

theorem wordsOK_ite_gx (C : Prop) [inst : Decidable C] (st : CompileState)
    (gx' : Emitter) (h : st.gx.Step gx') (hok : WordsOK st) :
    WordsOK (if C then { st with gx := gx' } else st) := by
  split
  · exact wordsOK_gx st gx' _ _ h hok
  · exact hok

theorem wordsOK_ite_record_mtx (C : Prop) [inst : Decidable C] (st : CompileState)
    (g : String) (hok : WordsOK st) :
    WordsOK ⟨(if C then
        { st with group_offsets := offsetsAppend st.group_offsets g (st.gx.offset + 1) }
      else st).gx.mtx_mult_4x4 {},
      (if C then
        { st with group_offsets := offsetsAppend st.group_offsets g (st.gx.offset + 1) }
      else st).group_offsets,
      (if C then
        { st with group_offsets := offsetsAppend st.group_offsets g (st.gx.offset + 1) }
      else st).texture_offsets,
      (if C then
        { st with group_offsets := offsetsAppend st.group_offsets g (st.gx.offset + 1) }
      else st).current_material⟩ := by
  by_cases hC : C
  · rw [if_pos hC]
    exact wordsOK_record_mtx st g hok
  · rw [if_neg hC]
    exact wordsOK_gx st _ _ _ (step_method st.gx 0x18 _ _) hok

theorem wordsOK_processMonoFace (model : Model) (sf : ℚ) (v10 : Bool)
    (group : String) (polytype : Nat) (st : CompileState) (face : Polygon)
    (hok : WordsOK st) :
    WordsOK (processMonoFace model sf v10 group polytype st face) := by
  unfold processMonoFace
  split
  · have hok1 : WordsOK (if st.current_material ≠ some face.material then
        { st with
          current_material := some face.material
          gx := start_polygon_list
            (write_face_attributes st.gx face model st.texture_offsets).1 polytype
          texture_offsets :=
            (write_face_attributes st.gx face model st.texture_offsets).2.1 }
      else st) := by
      split
      · exact wordsOK_gx st _ _ _
          (step_trans (step_write_face_attributes st.gx face model st.texture_offsets)
            (step_start_polygon_list _ polytype)) hok
      · exact hok
    have hbody : ∀ (e : Emitter) (p : Nat),
        e.Step (
          let gx :=
            if pyTruthy (model.materials face.material).texture then
              e.texcoord ((face.uvlist.getD p (0, 0)).1 *
                  ((model.materials face.material).texture_size.1 : ℚ))
                ((1 - (face.uvlist.getD p (0, 0)).2) *
                  ((model.materials face.material).texture_size.2 : ℚ))
            else e
          let gx :=
            if face.smooth_shading then write_normal gx (face.vertex_normals.getD p none)
            else gx
          write_vertex gx
            (model.vertices.getD (face.vertices.getD p 0) default).location sf v10) := by
      intro e p
      exact step_trans
        (step_ite e _ _ _ (step_method e 0x22 _ _) (step_refl e))
        (step_trans
          (step_ite _ _ _ _ (step_write_normal _ _) (step_refl _))
          (step_write_vertex _ _ _ _))
    refine wordsOK_gx _ _ _ _ ?_ hok1
    exact step_trans
      (step_ite _ _ _ _ (step_method _ 0x21 _ _) (step_refl _))
      (step_foldl _ hbody _ _)
  · exact hok

theorem wordsOK_processMonoGroup (model : Model) (sf : ℚ) (v10 : Bool)
    (st : CompileState) (group : String) (hok : WordsOK st) :
    WordsOK (processMonoGroup model sf v10 st group) := by
  unfold processMonoGroup
  exact wordsOK_gx _ _ _ _ (step_method _ 0x12 _ _)
    (wordsOK_foldl _
      (fun st' pt h =>
        wordsOK_foldl _
          (fun st'' f hh => wordsOK_processMonoFace model sf v10 group pt st'' f hh)
          model.polygons _
          (wordsOK_gx st' _ _ _ (step_start_polygon_list st'.gx pt) h))
      [3, 4] _
      (wordsOK_ite_record_mtx _ { st with gx := st.gx.push } group
        (wordsOK_gx st _ _ _ (step_method st.gx 0x11 _ _) hok)))

theorem wordsOK_process_monogroup_faces (model : Model) (sf : ℚ) (v10 : Bool)
    (st : CompileState) (hok : WordsOK st) :
    WordsOK (process_monogroup_faces model sf v10 st) := by
  unfold process_monogroup_faces
  exact wordsOK_foldl _
    (fun st' g h => wordsOK_processMonoGroup model sf v10 st' g h)
    model.groups _ hok

theorem wordsOK_processPolyPoint (model : Model) (sf : ℚ) (v10 : Bool)
    (face : Polygon) (st : CompileState) (p : Nat) (hok : WordsOK st) :
    WordsOK (processPolyPoint model sf v10 face st p) := by
  unfold processPolyPoint
  have h1 : WordsOK { st with gx := st.gx.push } :=
    wordsOK_gx st _ _ _ (step_method st.gx 0x11 _ _) hok
  have h3 := wordsOK_record_mtx { st with gx := st.gx.push }
    (model.vertices.getD (face.vertices.getD p 0) default).group h1
  exact wordsOK_gx _ _ _ _
    (step_trans
      (step_ite _ _ _ _ (step_write_normal _ _) (step_refl _))
      (step_trans (step_write_vertex _ _ _ _) (step_method _ 0x12 _ _)))
    h3

theorem wordsOK_processPolyFace (model : Model) (sf : ℚ) (v10 : Bool)
    (polytype : Nat) (st : CompileState) (face : Polygon) (hok : WordsOK st) :
    WordsOK (processPolyFace model sf v10 polytype st face) := by
  unfold processPolyFace
  split
  · have hok1 : WordsOK (if st.current_material ≠ some face.material then
        { st with
          current_material := some face.material
          gx := start_polygon_list
            (write_face_attributes st.gx face model st.texture_offsets).1 polytype
          texture_offsets :=
            (write_face_attributes st.gx face model st.texture_offsets).2.1 }
      else st) := by
      split
      · exact wordsOK_gx st _ _ _
          (step_trans (step_write_face_attributes st.gx face model st.texture_offsets)
            (step_start_polygon_list _ polytype)) hok
      · exact hok
    refine wordsOK_foldl _
      (fun st' pp h => wordsOK_processPolyPoint model sf v10 face st' pp h) _ _ ?_
    exact wordsOK_ite_gx _ _ _ (step_method _ 0x21 _ _) hok1
  · exact hok

theorem wordsOK_process_polygroup_faces (model : Model) (sf : ℚ) (v10 : Bool)
    (st : CompileState) (hok : WordsOK st) :
    WordsOK (process_polygroup_faces model sf v10 st) := by
  unfold process_polygroup_faces
  exact wordsOK_foldl _
    (fun st' pt h =>
      wordsOK_foldl _
        (fun st'' f hh => wordsOK_processPolyFace model sf v10 pt st'' f hh)
        model.polygons _
        (wordsOK_gx st' _ _ _ (step_start_polygon_list st'.gx pt) h))
    [3, 4] _ hok

theorem wordsOK_output (model : Model) (v10 : Bool) :
    WordsOK (output_active_mesh_state model v10) := by
  unfold output_active_mesh_state
  have h0 : WordsOK (⟨write_sane_defaults Emitter.init, [], [], none⟩ :
      CompileState) := by
    refine ⟨rfl, ?_⟩
    intro g offs h
    exact absurd h (List.not_mem_nil _)
  exact wordsOK_gx _ _ _ _ (step_method _ 0x12 _ _)
    (wordsOK_process_polygroup_faces model _ v10 _
      (wordsOK_process_monogroup_faces model _ v10 _
        (wordsOK_ite_gx _ _ _ (step_method _ 0x1B _ _)
          (wordsOK_gx _ _ _ _ (step_method _ 0x18 _ _)
            (wordsOK_gx _ _ _ _ (step_method _ 0x11 _ _) h0)))))

/-- C2: every offset the writer records in the bone reference table while
compiling a mesh points one word past the matrix-multiply opcode: reading the
compiled word stream at the recorded offset yields 4096, the leading 1.19.12
word of the identity-matrix placeholder, while the 0x18 MTX_MULT_4x4 opcode
word sits at the previous index — so offsets address the first parameter
word and never the opcode. -/
theorem group_offsets_point_at_parameters (model : Model) (vtx10 : Bool)
    (g : String) (offs : List Nat) (off : Nat)
    (hmem : (g, offs) ∈ (output_active_mesh_state model vtx10).group_offsets)
    (hoff : off ∈ offs) :
    off < (output_active_mesh_state model vtx10).gx.words.length ∧
    (output_active_mesh_state model vtx10).gx.words.getD off 0 = 4096 ∧
    (output_active_mesh_state model vtx10).gx.words.getD (off - 1) 0 = 24 ∧
    (4096 : Nat) ≠ 24 := by
  obtain ⟨-, hrec⟩ := wordsOK_output model vtx10
  obtain ⟨h0, h1, h2⟩ := hrec g offs hmem off hoff
  exact ⟨h0, h1, h2, by decide⟩

/-- C2 witness: compiling the polygon-free model with bone groups "default"
and "arm" records exactly offset 50 for "arm", and the compiled stream holds
4096 at word 50 with the 0x18 opcode at word 49. -/
theorem group_offsets_point_at_parameters_witness :
    ("arm", [50]) ∈ (output_active_mesh_state armModel false).group_offsets ∧
    (50 : Nat) ∈ [50] ∧
    (50 < (output_active_mesh_state armModel false).gx.words.length ∧
      (output_active_mesh_state armModel false).gx.words.getD 50 0 = 4096 ∧
      (output_active_mesh_state armModel false).gx.words.getD (50 - 1) 0 = 24 ∧
      (4096 : Nat) ≠ 24) := by
  have hscale : determine_scale_factor armModel = 1 := by
    norm_num [determine_scale_factor, largest_coordinate, Model.bounding_box,
      armModel]
  have hg : (output_active_mesh_state armModel false).group_offsets =
      [("arm", [50])] := by
    simp only [output_active_mesh_state]
    rw [hscale]
    decide
  have hmem : ("arm", [50]) ∈
      (output_active_mesh_state armModel false).group_offsets := by
    rw [hg]
    exact List.mem_singleton.mpr rfl
  exact ⟨hmem, by decide,
    group_offsets_point_at_parameters armModel false "arm" [50] 50 hmem (by decide)⟩

theorem charListLe_total : ∀ a b : List Char, charListLe a b = true ∨ charListLe b a = true := by
  intro a
  induction a with
  | nil => intro b; left; rfl
  | cons x xs ih =>
    intro b
    cases b with
    | nil => right; rfl
    | cons y ys =>
      by_cases h1 : x.toNat < y.toNat
      · left
        simp [charListLe, h1]
      · by_cases h2 : y.toNat < x.toNat
        · right
          simp [charListLe, h1, h2]
        · rcases ih ys with h | h
          · left
            simp [charListLe, h1, h2, h]
          · right
            simp [charListLe, h1, h2, h]

theorem charListLe_trans : ∀ a b c : List Char, charListLe a b = true →
    charListLe b c = true → charListLe a c = true := by
  intro a
  induction a with
  | nil => intro b c hab hbc; rfl
  | cons x xs ih =>
    intro b c hab hbc
    cases b with
    | nil => simp [charListLe] at hab
    | cons y ys =>
      cases c with
      | nil => simp [charListLe] at hbc
      | cons z zs =>
        simp only [charListLe] at hab hbc ⊢
        split_ifs at hab hbc ⊢ <;>
          first
          | rfl
          | omega
          | exact ih ys zs hab hbc
          | exact Bool.noConfusion hab
          | exact Bool.noConfusion hbc

instance : IsTotal String pyStrOrder :=
  ⟨fun a b => charListLe_total a.toList b.toList⟩

instance : IsTrans String pyStrOrder :=
  ⟨fun a b c hab hbc => charListLe_trans a.toList b.toList c.toList hab hbc⟩

theorem mapOpt_length {α β : Type} (f : α → Option β) :
    ∀ (l : List α) (l' : List β), mapOpt f l = some l' → l'.length = l.length := by
  intro l
  induction l with
  | nil =>
    intro l' h
    simp only [mapOpt, Option.some.injEq] at h
    subst h
    rfl
  | cons a t ih =>
    intro l' h
    simp only [mapOpt] at h
    cases hf : f a with
    | none =>
      rw [hf] at h
      simp at h
    | some b =>
      rw [hf] at h
      cases hm : mapOpt f t with
      | none =>
        rw [hm] at h
        simp at h
      | some bs =>
        rw [hm] at h
        simp only [Option.some.injEq] at h
        subst h
        simp only [List.length_cons, ih bs hm]

/-- C9 counterexample: for a model whose single animation has the nodes "arm"
and "default", the BONE payload's count field serializes 2 — the number of
node names, "default" included — but only one per-bone record follows, since
the writer loop skips "default"; the count field therefore does not equal the
number of records. -/
theorem bone_count_includes_default :
    output_active_bones boneModelEx [] =
      some (to_dsgx_string (some "mesh") ++ [2, 0, 0, 0] ++
        ((to_dsgx_string (some "arm") ++ [0, 0, 0, 0]) ++ [])) ∧
    ((pySorted (boneAnim.nodes.map Prod.fst)).filter
        (fun n => decide (n ≠ "default"))).length = 1 ∧
    boneAnim.nodes.length = 2 ∧ (2 : Nat) ≠ 1 :=
  ⟨by decide, by decide, by decide, by decide⟩

/-- C9 amended: when the animation's node names do not include the reserved
"default", the serialized BONE payload is the 32-byte mesh name, the
4-byte count of all bones, and one record per bone in Python's sorted
(code-point) order — so the count field equals the number of records that
follow, every bone appears in sorted order, and a bone with no recorded
offsets still contributes a record with offset count 0. -/
theorem output_active_bones_structure (model : Model)
    (go : List (String × List Nat)) (aname : String) (anim : Animation)
    (rest : List (String × Animation)) (p : List Nat)
    (hanim : model.animations = (aname, anim) :: rest)
    (hnd : "default" ∉ anim.nodes.map Prod.fst)
    (hp : output_active_bones model go = some p) :
    ∃ count records,
      packU32 anim.nodes.length = some count ∧
      mapOpt (boneRecord go) (pySorted (anim.nodes.map Prod.fst)) = some records ∧
      p = to_dsgx_string model.active_mesh ++ count ++ records.flatten ∧
      records.length = anim.nodes.length ∧
      List.Sorted pyStrOrder (pySorted (anim.nodes.map Prod.fst)) ∧
      (pySorted (anim.nodes.map Prod.fst)).Perm (anim.nodes.map Prod.fst) ∧
      (∀ name, lookupOffsets go name = none →
        boneRecord go name = some (to_dsgx_string (some name) ++ [0, 0, 0, 0])) := by
  have hfil : (pySorted (anim.nodes.map Prod.fst)).filter
      (fun n => decide (n ≠ "default")) = pySorted (anim.nodes.map Prod.fst) := by
    apply List.filter_eq_self.mpr
    intro a ha
    have hmem : a ∈ anim.nodes.map Prod.fst :=
      (List.perm_insertionSort pyStrOrder (anim.nodes.map Prod.fst)).mem_iff.mp ha
    rw [decide_eq_true_iff]
    intro heq
    exact hnd (heq ▸ hmem)
  unfold output_active_bones at hp
  rw [hanim] at hp
  replace hp : (match packU32 anim.nodes.length with
    | none => (none : Option (List Nat))
    | some count =>
      match mapOpt (boneRecord go)
          ((pySorted (anim.nodes.map Prod.fst)).filter
            (fun n => decide (n ≠ "default"))) with
      | none => none
      | some records =>
        some (to_dsgx_string model.active_mesh ++ count ++ records.flatten)) =
      some p := hp
  rw [hfil] at hp
  cases hc : packU32 anim.nodes.length with
  | none =>
    rw [hc] at hp
    simp at hp
  | some count =>
    rw [hc] at hp
    replace hp : (match mapOpt (boneRecord go) (pySorted (anim.nodes.map Prod.fst)) with
      | none => (none : Option (List Nat))
      | some records =>
        some (to_dsgx_string model.active_mesh ++ count ++ records.flatten)) =
        some p := hp
    cases hm : mapOpt (boneRecord go) (pySorted (anim.nodes.map Prod.fst)) with
    | none =>
      rw [hm] at hp
      simp at hp
    | some records =>
      rw [hm] at hp
      replace hp : some (to_dsgx_string model.active_mesh ++ count ++
        records.flatten) = some p := hp
      obtain rfl : to_dsgx_string model.active_mesh ++ count ++ records.flatten = p :=
        Option.some.inj hp
      refine ⟨count, records, rfl, rfl, rfl, ?_, List.sorted_insertionSort _ _,
        List.perm_insertionSort _ _, ?_⟩
      · have hlen := mapOpt_length (boneRecord go) _ records hm
        rw [hlen,
          show (pySorted (anim.nodes.map Prod.fst)).length =
              (anim.nodes.map Prod.fst).length
            from (List.perm_insertionSort pyStrOrder _).length_eq,
          List.length_map]
      · intro name hname
        unfold boneRecord
        rw [hname]

/-- C9 amended witness: the two-bone model carrying nodes "zeta" and "arm"
(no "default"), with one recorded offset for "arm" and none for "zeta". -/
theorem output_active_bones_structure_witness :
    boneModelOk.animations = ("anim", boneAnimOk) :: [] ∧
    "default" ∉ boneAnimOk.nodes.map Prod.fst ∧
    output_active_bones boneModelOk boneGoEx = some bonePayloadEx ∧
    (∃ count records,
      packU32 boneAnimOk.nodes.length = some count ∧
      mapOpt (boneRecord boneGoEx) (pySorted (boneAnimOk.nodes.map Prod.fst)) =
        some records ∧
      bonePayloadEx = to_dsgx_string boneModelOk.active_mesh ++ count ++
        records.flatten ∧
      records.length = boneAnimOk.nodes.length ∧
      List.Sorted pyStrOrder (pySorted (boneAnimOk.nodes.map Prod.fst)) ∧
      (pySorted (boneAnimOk.nodes.map Prod.fst)).Perm
        (boneAnimOk.nodes.map Prod.fst) ∧
      (∀ name, lookupOffsets boneGoEx name = none →
        boneRecord boneGoEx name =
          some (to_dsgx_string (some name) ++ [0, 0, 0, 0]))) := by
  have hp : output_active_bones boneModelOk boneGoEx = some bonePayloadEx := by
    decide
  exact ⟨rfl, by decide, hp,
    output_active_bones_structure boneModelOk boneGoEx "anim" boneAnimOk []
      bonePayloadEx rfl (by decide) hp⟩

end DSGX
